import Mathlib

/-!
Shallow embedding of the schema-diffing and SQL-generation core of
`adjustdb.py` (the `AdvancedDatabaseSyncer` class), together with proofs
about its classification and statement-generation behaviour.

Modelling conventions:
* Python dicts are association lists in insertion order; a lookup returns
  the value of the last binding of the key (later assignments overwrite).
* A row record fetched from `INFORMATION_SCHEMA` becomes a structure whose
  fields keep the upper-case column names used by the Python code.
* Machine-independent values only: row counts are `Nat`, SQL text is
  `String`.
* CPython iterates over a `set` in an unspecified, hash-seed-dependent
  order.  Wherever the Python code iterates over a set (the column-name
  set differences in `generate_table_modifications`), the iteration order
  is an explicit parameter; a faithful run supplies an enumeration of the
  corresponding set.  Where the code sorts first (`analyze_differences`)
  no such parameter is needed.
* `datetime.now().strftime(...)` is an explicit `now : String` parameter.
-/

namespace AdjustDB

/-- One row of the `INFORMATION_SCHEMA.COLUMNS` query issued by
`get_database_schema` (the fields the syncer reads).  `COLUMN_DEFAULT` is
`NULL`-able in SQL, hence an `Option`. -/
structure Col where
  COLUMN_NAME : String
  COLUMN_TYPE : String
  IS_NULLABLE : String
  COLUMN_DEFAULT : Option String
  EXTRA : String
  ORDINAL_POSITION : Nat
  COLUMN_KEY : String
deriving DecidableEq

/-- The per-table record stored in `schema['tables'][name]` by
`get_database_schema`. -/
structure TableInfo where
  create_statement : String
  engine : String
  charset : String
  rows : Nat
deriving DecidableEq

/-- One row of `SHOW INDEX` (the fields the syncer reads). -/
structure IndexRow where
  Key_name : String
  Column_name : String
deriving DecidableEq

/-- One row of the foreign-key query (the fields the syncer reads). -/
structure ForeignKeyRow where
  CONSTRAINT_NAME : String
  COLUMN_NAME : String
  REFERENCED_TABLE_NAME : String
  REFERENCED_COLUMN_NAME : String
  UPDATE_RULE : String
  DELETE_RULE : String
deriving DecidableEq

/-- Lookup in a Python dict modelled as an association list in insertion
order: the LAST binding of a key wins (later assignments overwrite). -/
def dlookup (d : List (String × α)) (k : String) : Option α :=
  (d.reverse.find? (fun kv => kv.fst == k)).map (·.snd)

/-- The `schema` dictionary built by `get_database_schema`: sub-dicts keyed
by table name. -/
structure Schema where
  tables : List (String × TableInfo)
  columns : List (String × List Col)
  indexes : List (String × List IndexRow)
  foreign_keys : List (String × List ForeignKeyRow)
deriving DecidableEq

/-- Python `str(...)` applied to a `COLUMN_DEFAULT` value: `str(None)` is
the four-character string `None`, and `str` of a string is itself.  This is
exactly the normalisation `table_has_differences` applies before comparing
defaults, making two absent defaults compare equal. -/
def pyStr : Option String → String
  | none => "None"
  | some s => s

/-- Python `set(a) == set(b)` for lists of strings: mutual containment. -/
def setEq (a b : List String) : Bool :=
  a.all (fun x => b.contains x) && b.all (fun x => a.contains x)

/-- The dict comprehension `{col['COLUMN_NAME']: col for col in rows}`
followed by a lookup: the last row with the given name wins. -/
def colsGet (l : List Col) (c : String) : Option Col :=
  l.reverse.find? (fun col => col.COLUMN_NAME == c)

/-- The key list of the column dict (`cols.keys()` before `set(...)`). -/
def colNames (l : List Col) : List String := l.map (·.COLUMN_NAME)

/-- `table_has_differences(table_name, schema1, schema2)`: missing column
data for either side reports a difference; otherwise the column-name sets
are compared, and then each shared column's type, nullability, `str`-ed
default and extra.  Index and foreign-key data are never consulted.  The
Python iterates the shared names as a set; since `any` is
order-insensitive, a fixed enumeration of the same names is used here. -/
def table_has_differences (t : String) (schema1 schema2 : Schema) : Bool :=
  match dlookup schema1.columns t, dlookup schema2.columns t with
  | some l1, some l2 =>
    let n1 := colNames l1
    let n2 := colNames l2
    !(setEq n1 n2) ||
      (n1.filter (fun c => n2.contains c)).any (fun c =>
        match colsGet l1 c, colsGet l2 c with
        | some col1, some col2 =>
          !(col1.COLUMN_TYPE == col2.COLUMN_TYPE &&
            col1.IS_NULLABLE == col2.IS_NULLABLE &&
            pyStr col1.COLUMN_DEFAULT == pyStr col2.COLUMN_DEFAULT &&
            col1.EXTRA == col2.EXTRA)
        -- unreachable: `c` is a key of both column dicts
        | _, _ => false)
  | _, _ => true

/-- Code-point comparison of characters, as Python compares strings. -/
def lexLeb : List Char → List Char → Bool
  | [], _ => true
  | _ :: _, [] => false
  | a :: as, b :: bs => if a = b then lexLeb as bs else decide (a < b)

/-- Python `sorted(...)` on strings (code-point lexicographic order). -/
def pySorted (l : List String) : List String :=
  l.mergeSort (fun a b => lexLeb a.data b.data)

/-- The `differences` dictionary produced by `analyze_differences`. -/
structure Differences where
  new_tables : List String
  removed_tables : List String
  modified_tables : List String
  identical_tables : List String
deriving DecidableEq

/-- `analyze_differences(schema1, schema2, ...)`: set differences of the
table-name sets, sorted; common tables are walked in sorted order and
routed to `modified` or `identical` by `table_has_differences`. -/
def analyze_differences (schema1 schema2 : Schema) : Differences :=
  let tables1 := (schema1.tables.map Prod.fst).dedup
  let tables2 := (schema2.tables.map Prod.fst).dedup
  let common := pySorted (tables1.filter (fun t => tables2.contains t))
  { new_tables := pySorted (tables1.filter (fun t => !(tables2.contains t)))
    removed_tables := pySorted (tables2.filter (fun t => !(tables1.contains t)))
    modified_tables := common.filter (fun t => table_has_differences t schema1 schema2)
    identical_tables := common.filter (fun t => !(table_has_differences t schema1 schema2)) }

/-- The `selections` dictionary filled in by `interactive_selection`. -/
structure Selections where
  structure_only : List String
  structure_and_data : List String
  skip : List String
  drop_tables : List String
deriving DecidableEq

/-- Python `str.strip()` on a character list: drop whitespace from both
ends. -/
def pyStripList (l : List Char) : List Char :=
  ((l.dropWhile Char.isWhitespace).reverse.dropWhile Char.isWhitespace).reverse

/-- Python `str.strip()`. -/
def pyStrip (s : String) : String := String.mk (pyStripList s.data)

/-- `"NULL" if col['IS_NULLABLE'] == 'YES' else "NOT NULL"`. -/
def null_clause (col : Col) : String :=
  if col.IS_NULLABLE == "YES" then "NULL" else "NOT NULL"

/-- The `DEFAULT ...` fragment; empty when the column default `is None`. -/
def default_clause (col : Col) : String :=
  match col.COLUMN_DEFAULT with
  | some d => "DEFAULT " ++ d
  | none => ""

/-- `col['EXTRA'] if col['EXTRA'] else ""`, which on strings is the
identity (the empty string is falsy). -/
def extra_clause (col : Col) : String := col.EXTRA

/-- The `ALTER TABLE ... ADD COLUMN` statement built (and `strip`-ped) by
`generate_table_modifications`; `c` is the name drawn from the set,
`col` the row looked up in the source column dict. -/
def addColumnStmt (t c : String) (col : Col) : String :=
  pyStrip ("ALTER TABLE `" ++ t ++ "` ADD COLUMN `" ++ c ++ "` " ++
    col.COLUMN_TYPE ++ " " ++ null_clause col ++ " " ++ default_clause col ++
    " " ++ extra_clause col) ++ ";"

/-- The `ALTER TABLE ... DROP COLUMN` statement. -/
def dropColumnStmt (t c : String) : String :=
  "ALTER TABLE `" ++ t ++ "` DROP COLUMN `" ++ c ++ "`;"

/-- The `ALTER TABLE ... MODIFY COLUMN` statement, carrying the
source-side column row `col`. -/
def modifyColumnStmt (t c : String) (col : Col) : String :=
  pyStrip ("ALTER TABLE `" ++ t ++ "` MODIFY COLUMN `" ++ c ++ "` " ++
    col.COLUMN_TYPE ++ " " ++ null_clause col ++ " " ++ default_clause col ++
    " " ++ extra_clause col) ++ ";"

/-- The modify-branch condition of `generate_table_modifications`: note it
compares raw defaults (`None` is unequal to the string `None` here, unlike
the `str`-normalised comparison in `table_has_differences`). -/
def columnChanged (col1 col2 : Col) : Bool :=
  col1.COLUMN_TYPE != col2.COLUMN_TYPE ||
  col1.IS_NULLABLE != col2.IS_NULLABLE ||
  col1.COLUMN_DEFAULT != col2.COLUMN_DEFAULT ||
  col1.EXTRA != col2.EXTRA

/-- A list enumerating a Python set whose members are those of `base`:
no duplicates and the same membership. -/
def IsIterOf (it base : List String) : Prop := it.Nodup ∧ setEq it base = true

/-- The set `set(cols1.keys()) - set(cols2.keys())` iterated by the
add-column loop, as a (possibly duplicated) member list. -/
def addBase (t : String) (schema1 schema2 : Schema) : List String :=
  let n1 := colNames ((dlookup schema1.columns t).getD [])
  let n2 := colNames ((dlookup schema2.columns t).getD [])
  n1.filter (fun c => !(n2.contains c))

/-- The set `set(cols2.keys()) - set(cols1.keys())` iterated by the
drop-column loop. -/
def removedBase (t : String) (schema1 schema2 : Schema) : List String :=
  let n1 := colNames ((dlookup schema1.columns t).getD [])
  let n2 := colNames ((dlookup schema2.columns t).getD [])
  n2.filter (fun c => !(n1.contains c))

/-- The set `set(cols1.keys()) & set(cols2.keys())` iterated by the
modify-column loop. -/
def commonBase (t : String) (schema1 schema2 : Schema) : List String :=
  let n1 := colNames ((dlookup schema1.columns t).getD [])
  let n2 := colNames ((dlookup schema2.columns t).getD [])
  n1.filter (fun c => n2.contains c)

/-- The test guarding the modify-column branch: the shared column `c` of
table `t` passes when its source and target rows differ per
`columnChanged`.  (The lookups always succeed when `c` is drawn from the
shared key set.) -/
def modifySelected (t : String) (schema1 schema2 : Schema) (c : String) : Bool :=
  match colsGet ((dlookup schema1.columns t).getD []) c,
        colsGet ((dlookup schema2.columns t).getD []) c with
  | some col1, some col2 => columnChanged col1 col2
  | _, _ => false

/-- `generate_table_modifications(table_name, schema1, schema2)`.  The
Python iterates the SETS `new_cols`, `removed_cols`, `common_cols`, whose
order CPython leaves unspecified (string hashing is randomised per
process); the three iteration orders are therefore explicit parameters,
and a faithful run supplies enumerations of `addBase`, `removedBase` and
`commonBase`.  `schema['columns']` is a `defaultdict(list)`, hence the
`.getD []`.  Dict lookups the loop guarantees to succeed (it iterates key
sets) fall back to the empty string, which no faithful run reaches. -/
def generate_table_modifications (t : String) (schema1 schema2 : Schema)
    (addIter removedIter commonIter : List String) : List String :=
  let l1 := (dlookup schema1.columns t).getD []
  (addIter.map fun c =>
    match colsGet l1 c with
    | some col => addColumnStmt t c col
    | none => "") ++
  (removedIter.map fun c => dropColumnStmt t c) ++
  ((commonIter.filter (modifySelected t schema1 schema2)).map fun c =>
    match colsGet l1 c with
    | some col => modifyColumnStmt t c col
    | none => "")

/-- Per-table set-iteration orders handed to
`generate_table_modifications` for each modified table: add order, removed
order, common order. -/
def SetOrders := String → List String × List String × List String

/-- The fixed header block of the structure script (`now` stands for the
`datetime.now().strftime('%Y-%m-%d %H:%M:%S')` call). -/
def structureHeader (db1_name db2_name now : String) : List String :=
  ["-- Structure Synchronization Script",
   "-- Generated by: MariaDB Advanced Database Synchronizer",
   "-- Author: João Cortez (jbcortezf@gmail.com)",
   "-- GitHub: https://github.com/jbcortezf/adjust-mariadb",
   "-- Generated on: " ++ now,
   "-- Source: " ++ db1_name ++ " → Target: " ++ db2_name,
   "",
   "USE `" ++ db2_name ++ "`;",
   "SET FOREIGN_KEY_CHECKS = 0;",
   ""]

/-- The three statements appended for one entry of
`selections['drop_tables']`. -/
def dropBlock (t : String) : List String :=
  ["-- Removing table " ++ t,
   "DROP TABLE IF EXISTS `" ++ t ++ "`;",
   ""]

/-- The statements appended for one entry of `tables_to_create`: a
verbatim `CREATE` when the table is absent from the target, otherwise the
`ALTER` statements of `generate_table_modifications`.  The inner `none`
branch is unreachable because `tables_to_create` is filtered to tables of
`schema1`. -/
def createOrAlterBlock (schema1 schema2 : Schema) (ord : SetOrders)
    (t : String) : List String :=
  match dlookup schema2.tables t with
  | none =>
    match dlookup schema1.tables t with
    | some tb => ["-- Creating table " ++ t, tb.create_statement ++ ";", ""]
    | none => []
  | some _ =>
    ["-- Modifying table structure " ++ t] ++
      generate_table_modifications t schema1 schema2
        (ord t).1 (ord t).2.1 (ord t).2.2 ++ [""]

/-- `tables_to_create`: structure-only selections, then structure+data
selections, filtered to tables the source schema contains. -/
def tablesToCreate (selections : Selections) (schema1 : Schema) : List String :=
  (selections.structure_only ++ selections.structure_and_data).filter
    (fun t => (dlookup schema1.tables t).isSome)

/-- `generate_structure_sql(selections, schema1, schema2, db1_name,
db2_name)`: header, drop blocks, create/alter blocks, re-enable
foreign-key checks. -/
def generate_structure_sql (selections : Selections) (schema1 schema2 : Schema)
    (db1_name db2_name now : String) (ord : SetOrders) : List String :=
  structureHeader db1_name db2_name now ++
  selections.drop_tables.flatMap dropBlock ++
  (tablesToCreate selections schema1).flatMap (createOrAlterBlock schema1 schema2 ord) ++
  ["SET FOREIGN_KEY_CHECKS = 1;"]

/-- Python `f-string` thousands formatting of a row count. -/
def commaGroupRev : List Char → List Char
  | a :: b :: c :: d :: rest => a :: b :: c :: ',' :: commaGroupRev (d :: rest)
  | l => l

/-- Render a row count the way a Python `:,`-format specifier does:
decimal digits grouped in threes by commas. -/
def commaFmt (n : Nat) : String :=
  String.mk ((commaGroupRev (toString n).data.reverse).reverse)

/-- The connection settings `generate_data_sql` reads back from
`databases.ini` for the `mysqldump` hint comment. -/
structure DbConfig where
  database1ip : String
  database1user : String
  database1name : String
deriving DecidableEq

/-- The statements appended for one entry of
`selections['structure_and_data']` by `generate_data_sql`: tables missing
from the source schema are skipped; otherwise a comment, a `TRUNCATE`, and
(only when the recorded row count is positive) the `INSERT` column header
plus export-externally comments.  No row data is ever rendered. -/
def dataTableBlock (schema1 : Schema) (cfg : DbConfig) (t : String) : List String :=
  match dlookup schema1.tables t with
  | none => []
  | some tb =>
    let rows_count := tb.rows
    let columns := colNames ((dlookup schema1.columns t).getD [])
    let columns_str := String.intercalate "`, `" columns
    ["-- Synchronizing data for table " ++ t ++ " (" ++ commaFmt rows_count ++ " records)",
     "TRUNCATE TABLE `" ++ t ++ "`;"] ++
    (if rows_count > 0 then
      ["INSERT INTO `" ++ t ++ "` (`" ++ columns_str ++ "`) VALUES",
       "-- WARNING: Data for table " ++ t ++ " must be exported separately",
       "-- due to large volume (" ++ commaFmt rows_count ++ " records)",
       "-- Use: mysqldump -h " ++ cfg.database1ip ++ " -u " ++ cfg.database1user ++
         " -p " ++ cfg.database1name ++ " " ++ t ++ " --no-create-info"]
     else []) ++
    [""]

/-- `generate_data_sql(selections, schema1, db1_name, db2_name)`: returns
the empty list when no table was selected for structure+data; otherwise a
header block, one `dataTableBlock` per selected table, and the re-enable
statement.  (The cursor the Python opens only executes `USE` on the source
connection and contributes nothing to the returned list.) -/
def generate_data_sql (selections : Selections) (schema1 : Schema)
    (db2_name now : String) (cfg : DbConfig) : List String :=
  if selections.structure_and_data.isEmpty then [] else
  ["-- Data Synchronization Script",
   "-- Generated by: MariaDB Advanced Database Synchronizer",
   "-- Author: João Cortez (jbcortezf@gmail.com)",
   "-- GitHub: https://github.com/jbcortezf/adjust-mariadb",
   "-- Generated on: " ++ now,
   "",
   "USE `" ++ db2_name ++ "`;",
   "SET FOREIGN_KEY_CHECKS = 0;",
   ""] ++
  selections.structure_and_data.flatMap (dataTableBlock schema1 cfg) ++
  ["SET FOREIGN_KEY_CHECKS = 1;"]

/-- Statement classification by leading text (Python `s.startswith(p)`),
used to state ordering properties of the generated scripts. -/
def strStarts (p s : String) : Bool := p.data.isPrefixOf s.data

/-- Statement classification by trailing text (Python `s.endswith(p)`). -/
def strEnds (p s : String) : Bool := p.data.isSuffixOf s.data

/-- An `ALTER TABLE ... ADD COLUMN` statement for table `t`. -/
def isAddColumnFor (t s : String) : Bool :=
  strStarts ("ALTER TABLE `" ++ t ++ "` ADD COLUMN") s

/-- An `ALTER TABLE ... DROP COLUMN` statement for table `t`. -/
def isDropColumnFor (t s : String) : Bool :=
  strStarts ("ALTER TABLE `" ++ t ++ "` DROP COLUMN") s

/-- An `ALTER TABLE ... MODIFY COLUMN` statement for table `t`. -/
def isModifyColumnFor (t s : String) : Bool :=
  strStarts ("ALTER TABLE `" ++ t ++ "` MODIFY COLUMN") s

/-- A generated data-script line is one of the shapes `generate_data_sql`
can emit: a comment, a blank, the `USE`, the `FOREIGN_KEY_CHECKS`
toggles, a `TRUNCATE`, or the bare `INSERT` column header ending in
`VALUES` — never a row-value tuple. -/
def dataLineOk (s : String) : Bool :=
  s == "" ||
  strStarts "--" s ||
  strStarts "USE `" s ||
  s == "SET FOREIGN_KEY_CHECKS = 0;" ||
  s == "SET FOREIGN_KEY_CHECKS = 1;" ||
  strStarts "TRUNCATE TABLE `" s ||
  (strStarts "INSERT INTO `" s && strEnds " VALUES" s)

/-- Example column rows used by the concrete witnesses below. -/
def colId : Col := ⟨"id", "int(11)", "NO", none, "auto_increment", 1, "PRI"⟩

def colName50 : Col := ⟨"name", "varchar(50)", "NO", none, "", 2, ""⟩

def colStatus10 : Col := ⟨"status", "varchar(10)", "YES", some "new", "", 2, ""⟩

def colStatus20 : Col := ⟨"status", "varchar(20)", "YES", some "new", "", 2, ""⟩

def colCreated : Col := ⟨"created_at", "datetime", "YES", none, "", 3, ""⟩

def colOld : Col := ⟨"old_flag", "int(11)", "YES", none, "", 3, ""⟩

def colA : Col := ⟨"a", "int(11)", "YES", none, "", 1, ""⟩

def colB : Col := ⟨"b", "int(11)", "YES", none, "", 2, ""⟩

def usersInfo : TableInfo :=
  ⟨"CREATE TABLE `users` (`id` int(11) NOT NULL, `name` varchar(50) NOT NULL)",
   "InnoDB", "utf8mb4_general_ci", 120⟩

def ordersInfo : TableInfo :=
  ⟨"CREATE TABLE `orders` (`id` int(11) NOT NULL)", "InnoDB", "utf8mb4_general_ci", 5000⟩

def legacyInfo : TableInfo :=
  ⟨"CREATE TABLE `legacy_logs` (`id` int(11) NOT NULL)", "InnoDB", "utf8mb4_general_ci", 7⟩

/-- Example source schema: `orders` (present in both, modified) and
`users` (present only here). -/
def srcSchema : Schema :=
  ⟨[("orders", ordersInfo), ("users", usersInfo)],
   [("orders", [colId, colStatus20, colCreated]), ("users", [colId, colName50])],
   [], []⟩

/-- Example target schema: `legacy_logs` (only here) and `orders` with a
narrower `status` column and an extra `old_flag` column. -/
def tgtSchema : Schema :=
  ⟨[("legacy_logs", legacyInfo), ("orders", ordersInfo)],
   [("legacy_logs", [colId]), ("orders", [colId, colStatus10, colOld])],
   [], []⟩

/-- Selection choosing structure-only sync for `users`, structure+data
for `orders`, and dropping `legacy_logs`. -/
def exSelections : Selections := ⟨["users"], ["orders"], [], ["legacy_logs"]⟩

/-- One fixed choice of set-iteration orders for the example schemas. -/
def exOrders : SetOrders := fun _ => (["created_at"], ["old_flag"], ["id", "status"])

/-- A table pair where the source has columns `a` and `b` and the target
has none, so both are added columns. -/
def abSrc : Schema := ⟨[("t", ordersInfo)], [("t", [colA, colB])], [], []⟩

def abTgt : Schema := ⟨[("t", ordersInfo)], [("t", [])], [], []⟩

/-- A source table recorded with zero rows, selected for structure+data. -/
def zeroInfo : TableInfo :=
  ⟨"CREATE TABLE `p` (`id` int(11) NOT NULL)", "InnoDB", "utf8mb4_general_ci", 0⟩

def zeroSchema : Schema := ⟨[("p", zeroInfo)], [("p", [colId])], [], []⟩

def zeroSelections : Selections := ⟨[], ["p"], [], []⟩

/-- Connection settings for the `mysqldump` hint in the examples. -/
def exConfig : DbConfig := ⟨"10.0.0.1", "root", "proddb"⟩

/-- No line of the script carries an `INSERT` header. -/
def noInsertLine (l : List String) : Bool :=
  l.all (fun s => !(strStarts "INSERT INTO" s))

theorem setEq_true_iff (a b : List String) :
    setEq a b = true ↔ ∀ x, x ∈ a ↔ x ∈ b := by
  simp only [setEq, Bool.and_eq_true, List.all_eq_true, List.elem_iff]
  constructor
  · rintro ⟨ha, hb⟩ x
    exact ⟨fun hx => ha x hx, fun hx => hb x hx⟩
  · intro h
    exact ⟨fun x hx => (h x).mp hx, fun x hx => (h x).mpr hx⟩

theorem mem_colNames_iff (l : List Col) (c : String) :
    c ∈ colNames l ↔ ∃ col ∈ l, col.COLUMN_NAME = c := by
  simp [colNames, List.mem_map]

theorem colsGet_isSome_of_mem (l : List Col) (c : String) (h : c ∈ colNames l) :
    ∃ col, colsGet l c = some col := by
  rw [← Option.isSome_iff_exists]
  unfold colsGet
  rw [List.find?_isSome]
  obtain ⟨col, hcol, hname⟩ := (mem_colNames_iff l c).mp h
  exact ⟨col, List.mem_reverse.mpr hcol, by simp [hname]⟩

theorem colsGet_some_mem (l : List Col) (c : String) (col : Col)
    (h : colsGet l c = some col) :
    c ∈ colNames l ∧ col ∈ l ∧ col.COLUMN_NAME = c := by
  have hmem : col ∈ l := List.mem_reverse.mp (List.mem_of_find?_eq_some h)
  have hname : col.COLUMN_NAME = c := by
    have := List.find?_some h
    simpa using this
  exact ⟨(mem_colNames_iff l c).mpr ⟨col, hmem, hname⟩, hmem, hname⟩

/-- Claim C1: for every pair of schema models and every table present in
both (with its column data present, as any completed extraction
guarantees), `table_has_differences` reports a difference exactly when the
column-name sets differ or some shared column name has an unequal column
definition under the section-3 rule: type, nullability, defaults compared
as `str`-normalised values (so two absent defaults are equal), and extra.
The right-hand side mentions only the column maps, so index or
foreign-key differences alone never make a table `modified`. -/
theorem C1_table_modified_iff (t : String) (schema1 schema2 : Schema)
    (l1 l2 : List Col)
    (h1 : dlookup schema1.columns t = some l1)
    (h2 : dlookup schema2.columns t = some l2) :
    table_has_differences t schema1 schema2 = true ↔
      ((¬ ∀ c : String, c ∈ colNames l1 ↔ c ∈ colNames l2) ∨
       ∃ c col1 col2, colsGet l1 c = some col1 ∧ colsGet l2 c = some col2 ∧
         ¬ (col1.COLUMN_TYPE = col2.COLUMN_TYPE ∧
            col1.IS_NULLABLE = col2.IS_NULLABLE ∧
            pyStr col1.COLUMN_DEFAULT = pyStr col2.COLUMN_DEFAULT ∧
            col1.EXTRA = col2.EXTRA)) := by
  unfold table_has_differences
  rw [h1, h2]
  simp only []
  cases hse : setEq (colNames l1) (colNames l2) with
  | false =>
    simp only [Bool.not_false, Bool.true_or, true_iff]
    refine Or.inl (fun hall => ?_)
    have := (setEq_true_iff _ _).mpr hall
    rw [hse] at this
    exact Bool.false_ne_true this
  | true =>
    have hiff := (setEq_true_iff (colNames l1) (colNames l2)).mp hse
    simp only [Bool.not_true, Bool.false_or]
    rw [List.any_eq_true]
    constructor
    · rintro ⟨c, hc, hbody⟩
      rw [List.mem_filter] at hc
      obtain ⟨hc1, hc2⟩ := hc
      obtain ⟨col1, hcol1⟩ := colsGet_isSome_of_mem l1 c hc1
      have hc2m : c ∈ colNames l2 := by simpa [List.elem_iff] using hc2
      obtain ⟨col2, hcol2⟩ := colsGet_isSome_of_mem l2 c hc2m
      rw [hcol1, hcol2] at hbody
      refine Or.inr ⟨c, col1, col2, hcol1, hcol2, fun hconj => ?_⟩
      obtain ⟨e1, e2, e3, e4⟩ := hconj
      simp [e1, e2, e3, e4] at hbody
    · rintro (hns | ⟨c, col1, col2, hcol1, hcol2, hne⟩)
      · exact absurd hiff hns
      · have hm1 := (colsGet_some_mem l1 c col1 hcol1).1
        have hm2 := (colsGet_some_mem l2 c col2 hcol2).1
        refine ⟨c, List.mem_filter.mpr ⟨hm1, by simpa [List.elem_iff] using hm2⟩, ?_⟩
        rw [hcol1, hcol2]
        simp [and_assoc]
        tauto

theorem count_pySorted (l : List String) (t : String) :
    List.count t (pySorted l) = List.count t l :=
  (List.mergeSort_perm l _).count_eq t

theorem mem_pySorted (l : List String) (t : String) : t ∈ pySorted l ↔ t ∈ l :=
  List.mem_mergeSort

theorem count_filter_ite (p : String → Bool) (l : List String) (t : String) :
    List.count t (l.filter p) = if p t = true then List.count t l else 0 := by
  split
  · exact List.count_filter ‹_›
  · refine List.count_eq_zero_of_not_mem ?_
    intro hm
    exact ‹¬p t = true› (List.mem_filter.mp hm).2

theorem count_filter_partition (p : String → Bool) (l : List String) (t : String) :
    List.count t (l.filter p) + List.count t (l.filter (fun x => !(p x))) = List.count t l := by
  rw [count_filter_ite, count_filter_ite]
  by_cases hpt : p t = true <;> simp [hpt]

theorem count_eq_ite (l : List String) (h : l.Nodup) (t : String) :
    List.count t l = if t ∈ l then 1 else 0 := by
  split
  · exact List.count_eq_one_of_mem h ‹_›
  · exact List.count_eq_zero_of_not_mem ‹_›

/-- Claim C5: every table name occurring in either schema appears in
exactly one of the four classification lists of `analyze_differences`,
and no other name appears at all: the total count of a name across
new/removed/modified/identical is 1 when the name belongs to either
schema and 0 otherwise. -/
theorem C5_classification_partition (schema1 schema2 : Schema) (t : String) :
    List.count t ((analyze_differences schema1 schema2).new_tables ++
      (analyze_differences schema1 schema2).removed_tables ++
      (analyze_differences schema1 schema2).modified_tables ++
      (analyze_differences schema1 schema2).identical_tables) =
    (if t ∈ schema1.tables.map Prod.fst ∨ t ∈ schema2.tables.map Prod.fst then 1 else 0) := by
  unfold analyze_differences
  simp only [List.count_append]
  set n1 := (schema1.tables.map Prod.fst).dedup with hn1
  set n2 := (schema2.tables.map Prod.fst).dedup with hn2
  have hd1 : n1.Nodup := List.nodup_dedup _
  have hd2 : n2.Nodup := List.nodup_dedup _
  have hmodid :
      List.count t ((pySorted (n1.filter (fun x => n2.contains x))).filter
          (fun x => table_has_differences x schema1 schema2)) +
        List.count t ((pySorted (n1.filter (fun x => n2.contains x))).filter
          (fun x => !(table_has_differences x schema1 schema2))) =
      List.count t (n1.filter (fun x => n2.contains x)) := by
    rw [count_filter_partition, count_pySorted]
  rw [count_pySorted, count_pySorted, add_assoc, add_assoc, hmodid]
  rw [count_eq_ite _ (hd1.filter _), count_eq_ite _ (hd2.filter _),
    count_eq_ite _ (hd1.filter _)]
  have e1 : t ∈ n1 ↔ t ∈ schema1.tables.map Prod.fst := List.mem_dedup
  have e2 : t ∈ n2 ↔ t ∈ schema2.tables.map Prod.fst := List.mem_dedup
  by_cases h1 : t ∈ n1 <;> by_cases h2 : t ∈ n2 <;>
    simp [List.mem_filter, h1, h2, List.elem_iff, e1.symm, e2.symm]

theorem table_has_differences_self (t : String) (A : Schema) (l : List Col)
    (h : dlookup A.columns t = some l) : table_has_differences t A A = false := by
  unfold table_has_differences
  rw [h]
  simp only []
  have hse : setEq (colNames l) (colNames l) = true :=
    (setEq_true_iff _ _).mpr (fun _ => Iff.rfl)
  rw [hse]
  simp only [Bool.not_true, Bool.false_or]
  rw [List.any_eq_false]
  intro c _
  cases hcg : colsGet l c with
  | none => simp [hcg]
  | some col => simp [hcg]

/-- Claim C6: classifying a schema against itself (with column data
present for each table, as any completed extraction guarantees) yields
empty new, removed and modified lists, and the identical list contains
exactly the tables of the schema. -/
theorem C6_classify_self_identical (A : Schema)
    (hwf : ∀ t ∈ A.tables.map Prod.fst, (dlookup A.columns t).isSome = true) :
    (analyze_differences A A).new_tables = [] ∧
    (analyze_differences A A).removed_tables = [] ∧
    (analyze_differences A A).modified_tables = [] ∧
    ∀ t, t ∈ (analyze_differences A A).identical_tables ↔
      t ∈ A.tables.map Prod.fst := by
  have hthd : ∀ t ∈ (A.tables.map Prod.fst).dedup,
      table_has_differences t A A = false := by
    intro t ht
    obtain ⟨l, hl⟩ := Option.isSome_iff_exists.mp (hwf t (List.mem_dedup.mp ht))
    exact table_has_differences_self t A l hl
  have hdiff : ((A.tables.map Prod.fst).dedup.filter
      (fun t => !((A.tables.map Prod.fst).dedup.contains t))) = [] := by
    rw [List.filter_eq_nil_iff]
    intro a ha
    simp [List.elem_iff, ha]
  have hcomm : ((A.tables.map Prod.fst).dedup.filter
      (fun t => (A.tables.map Prod.fst).dedup.contains t)) =
      (A.tables.map Prod.fst).dedup := by
    rw [List.filter_eq_self]
    intro a ha
    simp [List.elem_iff, ha]
  unfold analyze_differences
  simp only []
  refine ⟨?_, ?_, ?_, ?_⟩
  · rw [hdiff]
    simp [pySorted]
  · rw [hdiff]
    simp [pySorted]
  · rw [List.filter_eq_nil_iff]
    intro a ha
    rw [mem_pySorted, hcomm] at ha
    simp [hthd a ha]
  · intro t
    rw [List.mem_filter, mem_pySorted, hcomm]
    constructor
    · rintro ⟨ht, _⟩
      exact List.mem_dedup.mp ht
    · intro ht
      have htd := List.mem_dedup.mpr ht
      exact ⟨htd, by simp [hthd t htd]⟩

/-- Claim C4: the column clauses of generated `ADD COLUMN` and
`MODIFY COLUMN` statements are rendered from the source-side column rows
only.  Two target schemas that agree on which shared columns count as
changed yield identical statement lists (the target side influences only
the selection of modify candidates, never the clause text), and each
rendered clause is exactly `addColumnStmt`/`modifyColumnStmt` of the
source-side row. -/
theorem C4_source_side_clauses (t : String) (schema1 schema2 schema2' : Schema)
    (addIter removedIter commonIter : List String) :
    ((∀ c ∈ commonIter,
        modifySelected t schema1 schema2 c = modifySelected t schema1 schema2' c) →
      generate_table_modifications t schema1 schema2 addIter removedIter commonIter =
        generate_table_modifications t schema1 schema2' addIter removedIter commonIter) ∧
    (∀ c col, c ∈ addIter →
      colsGet ((dlookup schema1.columns t).getD []) c = some col →
      addColumnStmt t c col ∈
        generate_table_modifications t schema1 schema2 addIter removedIter commonIter) ∧
    (∀ c col, c ∈ commonIter → modifySelected t schema1 schema2 c = true →
      colsGet ((dlookup schema1.columns t).getD []) c = some col →
      modifyColumnStmt t c col ∈
        generate_table_modifications t schema1 schema2 addIter removedIter commonIter) := by
  refine ⟨?_, ?_, ?_⟩
  · intro h
    unfold generate_table_modifications
    rw [List.filter_congr h]
  · intro c col hc hcol
    unfold generate_table_modifications
    refine List.mem_append.mpr (Or.inl (List.mem_append.mpr (Or.inl ?_)))
    refine List.mem_map.mpr ⟨c, hc, ?_⟩
    simp only [hcol]
  · intro c col hc hsel hcol
    unfold generate_table_modifications
    refine List.mem_append.mpr (Or.inr ?_)
    refine List.mem_map.mpr ⟨c, List.mem_filter.mpr ⟨hc, hsel⟩, ?_⟩
    simp only [hcol]

theorem front_dropWhile (c : Char) (hc : c.isWhitespace = false) (l : List Char) :
    (c :: l).dropWhile Char.isWhitespace = c :: l := by
  simp [List.dropWhile_cons, hc]

theorem trailStrip_append (p r : List Char) (hr : ∃ x ∈ r, x.isWhitespace = false) :
    ((p ++ r).reverse.dropWhile Char.isWhitespace).reverse =
      p ++ (r.reverse.dropWhile Char.isWhitespace).reverse := by
  rw [List.reverse_append, List.dropWhile_append]
  have hne : r.reverse.dropWhile Char.isWhitespace ≠ [] := by
    rw [Ne, List.dropWhile_eq_nil_iff]
    obtain ⟨x, hx, hxw⟩ := hr
    intro hall
    rw [hall x (List.mem_reverse.mpr hx)] at hxw
    cases hxw
  rw [if_neg (by simpa [List.isEmpty_iff] using hne)]
  rw [List.reverse_append, List.reverse_reverse]

theorem trail_cons (c : Char) (hc : c.isWhitespace = false) (l : List Char) :
    ∃ q, ((c :: l).reverse.dropWhile Char.isWhitespace).reverse = c :: q := by
  by_cases h : ∃ x ∈ l, x.isWhitespace = false
  · refine ⟨(l.reverse.dropWhile Char.isWhitespace).reverse, ?_⟩
    have := trailStrip_append [c] l h
    simpa using this
  · refine ⟨[], ?_⟩
    rw [show (c :: l).reverse = l.reverse ++ [c] by simp]
    rw [List.dropWhile_append]
    have hnil : l.reverse.dropWhile Char.isWhitespace = [] := by
      rw [List.dropWhile_eq_nil_iff]
      intro x hx
      by_contra hxw
      exact h ⟨x, List.mem_reverse.mp hx, by simpa using hxw⟩
    rw [hnil]
    simp [List.dropWhile_cons, hc]

theorem pyStripList_split (c : Char) (hc : c.isWhitespace = false)
    (p : List Char) (x : Char) (hx : x.isWhitespace = false) (r : List Char) :
    ∃ q, pyStripList ((c :: p) ++ (x :: r)) = (c :: p) ++ (x :: q) := by
  unfold pyStripList
  rw [show (c :: p) ++ (x :: r) = c :: (p ++ x :: r) by simp]
  rw [front_dropWhile c hc]
  rw [show c :: (p ++ x :: r) = (c :: p) ++ (x :: r) by simp]
  rw [trailStrip_append (c :: p) (x :: r) ⟨x, by simp, hx⟩]
  obtain ⟨q, hq⟩ := trail_cons x hx r
  exact ⟨q, by rw [hq]⟩

theorem data_mk (l : List Char) : (String.mk l).data = l := rfl

theorem addColumnStmt_shape (t cn : String) (col : Col) :
    ∃ q, (addColumnStmt t cn col).data =
      "ALTER TABLE `".data ++ t.data ++ ('`' :: ' ' :: 'A' :: q) := by
  obtain ⟨q, hq⟩ := pyStripList_split 'A' (by decide)
    ("LTER TABLE `".data ++ t.data ++ ['`', ' ']) 'A' (by decide)
    ("DD COLUMN `".data ++ cn.data ++ "` ".data ++ col.COLUMN_TYPE.data ++ " ".data ++
      (null_clause col).data ++ " ".data ++ (default_clause col).data ++ " ".data ++
      (extra_clause col).data)
  refine ⟨q ++ ";".data, ?_⟩
  unfold addColumnStmt pyStrip
  rw [String.data_append]
  have lit1 : ("ALTER TABLE `" : String).data = 'A' :: "LTER TABLE `".data := rfl
  have lit2 : ("` ADD COLUMN `" : String).data = '`' :: ' ' :: 'A' :: "DD COLUMN `".data := rfl
  have harg : ("ALTER TABLE `" ++ t ++ "` ADD COLUMN `" ++ cn ++ "` " ++
      col.COLUMN_TYPE ++ " " ++ null_clause col ++ " " ++ default_clause col ++ " " ++
      extra_clause col).data =
      ('A' :: ("LTER TABLE `".data ++ t.data ++ ['`', ' '])) ++
        ('A' :: ("DD COLUMN `".data ++ cn.data ++ "` ".data ++ col.COLUMN_TYPE.data ++
          " ".data ++ (null_clause col).data ++ " ".data ++ (default_clause col).data ++
          " ".data ++ (extra_clause col).data)) := by
    simp [String.data_append, lit1, lit2, List.append_assoc]
  rw [data_mk, harg, hq]
  simp [lit1, List.append_assoc]

theorem modifyColumnStmt_shape (t cn : String) (col : Col) :
    ∃ q, (modifyColumnStmt t cn col).data =
      "ALTER TABLE `".data ++ t.data ++ ('`' :: ' ' :: 'M' :: q) := by
  obtain ⟨q, hq⟩ := pyStripList_split 'A' (by decide)
    ("LTER TABLE `".data ++ t.data ++ ['`', ' ']) 'M' (by decide)
    ("ODIFY COLUMN `".data ++ cn.data ++ "` ".data ++ col.COLUMN_TYPE.data ++ " ".data ++
      (null_clause col).data ++ " ".data ++ (default_clause col).data ++ " ".data ++
      (extra_clause col).data)
  refine ⟨q ++ ";".data, ?_⟩
  unfold modifyColumnStmt pyStrip
  rw [String.data_append]
  have lit1 : ("ALTER TABLE `" : String).data = 'A' :: "LTER TABLE `".data := rfl
  have lit2 : ("` MODIFY COLUMN `" : String).data = '`' :: ' ' :: 'M' :: "ODIFY COLUMN `".data := rfl
  have harg : ("ALTER TABLE `" ++ t ++ "` MODIFY COLUMN `" ++ cn ++ "` " ++
      col.COLUMN_TYPE ++ " " ++ null_clause col ++ " " ++ default_clause col ++ " " ++
      extra_clause col).data =
      ('A' :: ("LTER TABLE `".data ++ t.data ++ ['`', ' '])) ++
        ('M' :: ("ODIFY COLUMN `".data ++ cn.data ++ "` ".data ++ col.COLUMN_TYPE.data ++
          " ".data ++ (null_clause col).data ++ " ".data ++ (default_clause col).data ++
          " ".data ++ (extra_clause col).data)) := by
    simp [String.data_append, lit1, lit2, List.append_assoc]
  rw [data_mk, harg, hq]
  simp [lit1, List.append_assoc]

theorem dropColumnStmt_shape (t cn : String) :
    ∃ q, (dropColumnStmt t cn).data =
      "ALTER TABLE `".data ++ t.data ++ ('`' :: ' ' :: 'D' :: q) := by
  refine ⟨"ROP COLUMN `".data ++ cn.data ++ "`;".data, ?_⟩
  unfold dropColumnStmt
  have lit1 : ("ALTER TABLE `" : String).data = 'A' :: "LTER TABLE `".data := rfl
  have lit2 : ("` DROP COLUMN `" : String).data = '`' :: ' ' :: 'D' :: "ROP COLUMN `".data := rfl
  simp [String.data_append, lit1, lit2, List.append_assoc]

theorem prefix_cc_false (L : List Char) (c1 c2 a b : Char) (hab : a ≠ b)
    (X Y : List Char)
    (h : (L ++ (c1 :: c2 :: a :: X)) <+: (L ++ (c1 :: c2 :: b :: Y))) : False := by
  have h' := (List.prefix_append_right_inj L).mp h
  rw [List.cons_prefix_cons] at h'
  obtain ⟨-, h'⟩ := h'
  rw [List.cons_prefix_cons] at h'
  obtain ⟨-, h'⟩ := h'
  rw [List.cons_prefix_cons] at h'
  exact hab h'.1

theorem addPrefix_data (t : String) :
    ("ALTER TABLE `" ++ t ++ "` ADD COLUMN").data =
      "ALTER TABLE `".data ++ t.data ++ ('`' :: ' ' :: 'A' :: "DD COLUMN".data) := by
  have lit2 : ("` ADD COLUMN" : String).data = '`' :: ' ' :: 'A' :: "DD COLUMN".data := rfl
  simp [String.data_append, lit2, List.append_assoc]

theorem dropPrefix_data (t : String) :
    ("ALTER TABLE `" ++ t ++ "` DROP COLUMN").data =
      "ALTER TABLE `".data ++ t.data ++ ('`' :: ' ' :: 'D' :: "ROP COLUMN".data) := by
  have lit2 : ("` DROP COLUMN" : String).data = '`' :: ' ' :: 'D' :: "ROP COLUMN".data := rfl
  simp [String.data_append, lit2, List.append_assoc]

theorem modifyPrefix_data (t : String) :
    ("ALTER TABLE `" ++ t ++ "` MODIFY COLUMN").data =
      "ALTER TABLE `".data ++ t.data ++ ('`' :: ' ' :: 'M' :: "ODIFY COLUMN".data) := by
  have lit2 : ("` MODIFY COLUMN" : String).data = '`' :: ' ' :: 'M' :: "ODIFY COLUMN".data := rfl
  simp [String.data_append, lit2, List.append_assoc]

theorem strStarts_empty (p : String) (hp : p.data ≠ []) : strStarts p "" = false := by
  unfold strStarts
  cases hd : p.data with
  | nil => exact absurd hd hp
  | cons c cs => rfl

theorem isAddColumnFor_empty (t : String) : isAddColumnFor t "" = false := by
  unfold isAddColumnFor
  apply strStarts_empty
  rw [addPrefix_data]
  simp

theorem isDropColumnFor_empty (t : String) : isDropColumnFor t "" = false := by
  unfold isDropColumnFor
  apply strStarts_empty
  rw [dropPrefix_data]
  simp

theorem isModifyColumnFor_empty (t : String) : isModifyColumnFor t "" = false := by
  unfold isModifyColumnFor
  apply strStarts_empty
  rw [modifyPrefix_data]
  simp

theorem isDropColumnFor_addStmt (t cn : String) (col : Col) :
    isDropColumnFor t (addColumnStmt t cn col) = false := by
  obtain ⟨q, hq⟩ := addColumnStmt_shape t cn col
  unfold isDropColumnFor strStarts
  rw [Bool.eq_false_iff]
  intro hpre
  rw [List.isPrefixOf_iff_prefix, hq, dropPrefix_data] at hpre
  exact prefix_cc_false _ _ _ _ _ (by decide) _ _ hpre

theorem isModifyColumnFor_addStmt (t cn : String) (col : Col) :
    isModifyColumnFor t (addColumnStmt t cn col) = false := by
  obtain ⟨q, hq⟩ := addColumnStmt_shape t cn col
  unfold isModifyColumnFor strStarts
  rw [Bool.eq_false_iff]
  intro hpre
  rw [List.isPrefixOf_iff_prefix, hq, modifyPrefix_data] at hpre
  exact prefix_cc_false _ _ _ _ _ (by decide) _ _ hpre

theorem isAddColumnFor_dropStmt (t cn : String) :
    isAddColumnFor t (dropColumnStmt t cn) = false := by
  obtain ⟨q, hq⟩ := dropColumnStmt_shape t cn
  unfold isAddColumnFor strStarts
  rw [Bool.eq_false_iff]
  intro hpre
  rw [List.isPrefixOf_iff_prefix, hq, addPrefix_data] at hpre
  exact prefix_cc_false _ _ _ _ _ (by decide) _ _ hpre

theorem isModifyColumnFor_dropStmt (t cn : String) :
    isModifyColumnFor t (dropColumnStmt t cn) = false := by
  obtain ⟨q, hq⟩ := dropColumnStmt_shape t cn
  unfold isModifyColumnFor strStarts
  rw [Bool.eq_false_iff]
  intro hpre
  rw [List.isPrefixOf_iff_prefix, hq, modifyPrefix_data] at hpre
  exact prefix_cc_false _ _ _ _ _ (by decide) _ _ hpre

theorem isAddColumnFor_modifyStmt (t cn : String) (col : Col) :
    isAddColumnFor t (modifyColumnStmt t cn col) = false := by
  obtain ⟨q, hq⟩ := modifyColumnStmt_shape t cn col
  unfold isAddColumnFor strStarts
  rw [Bool.eq_false_iff]
  intro hpre
  rw [List.isPrefixOf_iff_prefix, hq, addPrefix_data] at hpre
  exact prefix_cc_false _ _ _ _ _ (by decide) _ _ hpre

theorem isDropColumnFor_modifyStmt (t cn : String) (col : Col) :
    isDropColumnFor t (modifyColumnStmt t cn col) = false := by
  obtain ⟨q, hq⟩ := modifyColumnStmt_shape t cn col
  unfold isDropColumnFor strStarts
  rw [Bool.eq_false_iff]
  intro hpre
  rw [List.isPrefixOf_iff_prefix, hq, dropPrefix_data] at hpre
  exact prefix_cc_false _ _ _ _ _ (by decide) _ _ hpre

theorem region_lt (X Y : List String) (p q : String → Bool)
    (hpY : ∀ s ∈ Y, p s = false) (hqX : ∀ s ∈ X, q s = false) :
    ∀ i j (hi : i < (X ++ Y).length) (hj : j < (X ++ Y).length),
      p ((X ++ Y).get ⟨i, hi⟩) = true → q ((X ++ Y).get ⟨j, hj⟩) = true → i < j := by
  intro i j hi hj hp hq
  have hiX : i < X.length := by
    by_contra hge
    push_neg at hge
    have hmem : (X ++ Y).get ⟨i, hi⟩ ∈ Y := by
      rw [List.get_eq_getElem, List.getElem_append_right hge]
      exact List.getElem_mem _
    rw [hpY _ hmem] at hp
    cases hp
  have hjY : X.length ≤ j := by
    by_contra hlt
    push_neg at hlt
    have hmem : (X ++ Y).get ⟨j, hj⟩ ∈ X := by
      rw [List.get_eq_getElem, List.getElem_append_left hlt]
      exact List.getElem_mem _
    rw [hqX _ hmem] at hq
    cases hq
  omega

/-- Claim C2 (amended): in the statements generated for one table, every
`ADD COLUMN` statement precedes every `DROP COLUMN` statement, every
`ADD COLUMN` precedes every `MODIFY COLUMN`, and every `DROP COLUMN`
precedes every `MODIFY COLUMN` — the fixed add/drop/modify sub-order.
Within each group the order is the Python set-iteration order, which is
NOT name-sorted (see the counterexample). -/
theorem C2_operation_kind_order (t : String) (schema1 schema2 : Schema)
    (addIter removedIter commonIter : List String) :
    (∀ i j
      (hi : i < (generate_table_modifications t schema1 schema2 addIter removedIter commonIter).length)
      (hj : j < (generate_table_modifications t schema1 schema2 addIter removedIter commonIter).length),
      isAddColumnFor t ((generate_table_modifications t schema1 schema2 addIter removedIter commonIter).get ⟨i, hi⟩) = true →
      isDropColumnFor t ((generate_table_modifications t schema1 schema2 addIter removedIter commonIter).get ⟨j, hj⟩) = true →
      i < j) ∧
    (∀ i j
      (hi : i < (generate_table_modifications t schema1 schema2 addIter removedIter commonIter).length)
      (hj : j < (generate_table_modifications t schema1 schema2 addIter removedIter commonIter).length),
      isAddColumnFor t ((generate_table_modifications t schema1 schema2 addIter removedIter commonIter).get ⟨i, hi⟩) = true →
      isModifyColumnFor t ((generate_table_modifications t schema1 schema2 addIter removedIter commonIter).get ⟨j, hj⟩) = true →
      i < j) ∧
    (∀ i j
      (hi : i < (generate_table_modifications t schema1 schema2 addIter removedIter commonIter).length)
      (hj : j < (generate_table_modifications t schema1 schema2 addIter removedIter commonIter).length),
      isDropColumnFor t ((generate_table_modifications t schema1 schema2 addIter removedIter commonIter).get ⟨i, hi⟩) = true →
      isModifyColumnFor t ((generate_table_modifications t schema1 schema2 addIter removedIter commonIter).get ⟨j, hj⟩) = true →
      i < j) := by
  have hL : generate_table_modifications t schema1 schema2 addIter removedIter commonIter =
      (addIter.map fun c =>
        match colsGet ((dlookup schema1.columns t).getD []) c with
        | some col => addColumnStmt t c col
        | none => "") ++
      (removedIter.map fun c => dropColumnStmt t c) ++
      ((commonIter.filter (modifySelected t schema1 schema2)).map fun c =>
        match colsGet ((dlookup schema1.columns t).getD []) c with
        | some col => modifyColumnStmt t c col
        | none => "") := rfl
  set A := (addIter.map fun c =>
    match colsGet ((dlookup schema1.columns t).getD []) c with
    | some col => addColumnStmt t c col
    | none => "") with hA
  set D := (removedIter.map fun c => dropColumnStmt t c) with hD
  set M := ((commonIter.filter (modifySelected t schema1 schema2)).map fun c =>
    match colsGet ((dlookup schema1.columns t).getD []) c with
    | some col => modifyColumnStmt t c col
    | none => "") with hM
  have hAe : ∀ s ∈ A, isDropColumnFor t s = false ∧ isModifyColumnFor t s = false := by
    intro s hs
    obtain ⟨cn, -, hcn⟩ := List.mem_map.mp hs
    revert hcn
    cases colsGet ((dlookup schema1.columns t).getD []) cn with
    | some col =>
      intro hcn
      rw [← hcn]
      exact ⟨isDropColumnFor_addStmt t cn col, isModifyColumnFor_addStmt t cn col⟩
    | none =>
      intro hcn
      rw [← hcn]
      exact ⟨isDropColumnFor_empty t, isModifyColumnFor_empty t⟩
  have hDe : ∀ s ∈ D, isAddColumnFor t s = false ∧ isModifyColumnFor t s = false := by
    intro s hs
    obtain ⟨cn, -, hcn⟩ := List.mem_map.mp hs
    rw [← hcn]
    exact ⟨isAddColumnFor_dropStmt t cn, isModifyColumnFor_dropStmt t cn⟩
  have hMe : ∀ s ∈ M, isAddColumnFor t s = false ∧ isDropColumnFor t s = false := by
    intro s hs
    obtain ⟨cn, -, hcn⟩ := List.mem_map.mp hs
    revert hcn
    cases colsGet ((dlookup schema1.columns t).getD []) cn with
    | some col =>
      intro hcn
      rw [← hcn]
      exact ⟨isAddColumnFor_modifyStmt t cn col, isDropColumnFor_modifyStmt t cn col⟩
    | none =>
      intro hcn
      rw [← hcn]
      exact ⟨isAddColumnFor_empty t, isDropColumnFor_empty t⟩
  refine ⟨?_, ?_, ?_⟩
  · have h1 := region_lt A (D ++ M) (isAddColumnFor t) (isDropColumnFor t)
      (by
        intro s hs
        rcases List.mem_append.mp hs with h | h
        · exact (hDe s h).1
        · exact (hMe s h).1)
      (fun s hs => (hAe s hs).1)
    rw [← List.append_assoc] at h1
    rw [hL]
    exact h1
  · have h1 := region_lt A (D ++ M) (isAddColumnFor t) (isModifyColumnFor t)
      (by
        intro s hs
        rcases List.mem_append.mp hs with h | h
        · exact (hDe s h).1
        · exact (hMe s h).1)
      (fun s hs => (hAe s hs).2)
    rw [← List.append_assoc] at h1
    rw [hL]
    exact h1
  · have h1 := region_lt (A ++ D) M (isDropColumnFor t) (isModifyColumnFor t)
      (fun s hs => (hMe s hs).2)
      (by
        intro s hs
        rcases List.mem_append.mp hs with h | h
        · exact (hAe s h).2
        · exact (hDe s h).2)
    rw [hL]
    exact h1

/-- Claim C3 (amended): for a fixed set-iteration order, two runs of the
structure-script generator on identical classification, selection and
schema inputs produce statement lists of the same length that agree at
every index except index 4, the generated-on header line, which embeds
the wall-clock timestamp.  Byte-identical output therefore holds exactly
up to that line (and only within a process, where the hash-seed-dependent
set order is fixed). -/
theorem C3_header_timestamp_only (selections : Selections) (schema1 schema2 : Schema)
    (db1_name db2_name now1 now2 : String) (ord : SetOrders) :
    (generate_structure_sql selections schema1 schema2 db1_name db2_name now1 ord).length =
      (generate_structure_sql selections schema1 schema2 db1_name db2_name now2 ord).length ∧
    ∀ i, i ≠ 4 →
      (generate_structure_sql selections schema1 schema2 db1_name db2_name now1 ord)[i]? =
      (generate_structure_sql selections schema1 schema2 db1_name db2_name now2 ord)[i]? := by
  have hshape : ∀ now : String,
      generate_structure_sql selections schema1 schema2 db1_name db2_name now ord =
      structureHeader db1_name db2_name now ++
        (selections.drop_tables.flatMap dropBlock ++
          ((tablesToCreate selections schema1).flatMap
              (createOrAlterBlock schema1 schema2 ord) ++
            ["SET FOREIGN_KEY_CHECKS = 1;"])) := by
    intro now
    unfold generate_structure_sql
    simp [List.append_assoc]
  constructor
  · rw [hshape now1, hshape now2]
    simp [structureHeader]
  · intro i hne
    rw [hshape now1, hshape now2]
    have hlen1 : (structureHeader db1_name db2_name now1).length = 10 := rfl
    have hlen2 : (structureHeader db1_name db2_name now2).length = 10 := rfl
    by_cases hi : i < 10
    · have e1 : (structureHeader db1_name db2_name now1 ++
          (selections.drop_tables.flatMap dropBlock ++
            ((tablesToCreate selections schema1).flatMap
                (createOrAlterBlock schema1 schema2 ord) ++
              ["SET FOREIGN_KEY_CHECKS = 1;"])))[i]? =
          (structureHeader db1_name db2_name now1)[i]? := by
        rw [List.getElem?_append, hlen1, if_pos hi]
      have e2 : (structureHeader db1_name db2_name now2 ++
          (selections.drop_tables.flatMap dropBlock ++
            ((tablesToCreate selections schema1).flatMap
                (createOrAlterBlock schema1 schema2 ord) ++
              ["SET FOREIGN_KEY_CHECKS = 1;"])))[i]? =
          (structureHeader db1_name db2_name now2)[i]? := by
        rw [List.getElem?_append, hlen2, if_pos hi]
      rw [e1, e2]
      interval_cases i <;> simp_all [structureHeader]
    · conv_lhs => rw [List.getElem?_append_right (by rw [hlen1]; omega)]
      conv_rhs => rw [List.getElem?_append_right (by rw [hlen2]; omega)]
      rw [hlen1, hlen2]

theorem strStarts_head (p s : String) (c : Char) (cs : List Char) (hp : p.data = c :: cs)
    (h : strStarts p s = true) : s.data.head? = some c := by
  unfold strStarts at h
  rw [List.isPrefixOf_iff_prefix, hp] at h
  obtain ⟨tl, htl⟩ := h
  rw [← htl]
  rfl

theorem strStarts_false_of_head (p s : String) (c : Char) (cs : List Char)
    (hp : p.data = c :: cs) (hs : s.data.head? ≠ some c) : strStarts p s = false := by
  rw [Bool.eq_false_iff]
  intro h
  exact hs (strStarts_head p s c cs hp h)

theorem head_append (s x : String) (c : Char) (h : s.data.head? = some c) :
    (s ++ x).data.head? = some c := by
  rw [String.data_append]
  cases hd : s.data with
  | nil => rw [hd] at h; cases h
  | cons a l =>
    rw [hd] at h
    simpa using h

theorem head_of_shape (t s : String) (K : Char) (q : List Char)
    (hs : s.data = "ALTER TABLE `".data ++ t.data ++ ('`' :: ' ' :: K :: q)) :
    s.data.head? = some 'A' := by
  rw [hs]
  rfl

theorem ca_false_of_head (s : String)
    (h1 : s.data.head? ≠ some 'C') (h2 : s.data.head? ≠ some 'A') :
    (strStarts "CREATE TABLE" s || strStarts "ALTER TABLE" s) = false := by
  rw [strStarts_false_of_head "CREATE TABLE" s 'C' _ rfl h1,
    strStarts_false_of_head "ALTER TABLE" s 'A' _ rfl h2]
  rfl

theorem gtm_mem_shape (t : String) (schema1 schema2 : Schema) (a r c : List String)
    (s : String) (hs : s ∈ generate_table_modifications t schema1 schema2 a r c) :
    (∃ cn col, s = addColumnStmt t cn col) ∨ (∃ cn, s = dropColumnStmt t cn) ∨
    (∃ cn col, s = modifyColumnStmt t cn col) ∨ s = "" := by
  have hL : generate_table_modifications t schema1 schema2 a r c =
      (a.map fun cn =>
        match colsGet ((dlookup schema1.columns t).getD []) cn with
        | some col => addColumnStmt t cn col
        | none => "") ++
      (r.map fun cn => dropColumnStmt t cn) ++
      ((c.filter (modifySelected t schema1 schema2)).map fun cn =>
        match colsGet ((dlookup schema1.columns t).getD []) cn with
        | some col => modifyColumnStmt t cn col
        | none => "") := rfl
  rw [hL] at hs
  rcases List.mem_append.mp hs with h | h
  · rcases List.mem_append.mp h with h | h
    · obtain ⟨cn, -, hcn⟩ := List.mem_map.mp h
      revert hcn
      cases colsGet ((dlookup schema1.columns t).getD []) cn with
      | some col => intro hcn; exact Or.inl ⟨cn, col, hcn.symm⟩
      | none => intro hcn; exact Or.inr (Or.inr (Or.inr hcn.symm))
    · obtain ⟨cn, -, hcn⟩ := List.mem_map.mp h
      exact Or.inr (Or.inl ⟨cn, hcn.symm⟩)
  · obtain ⟨cn, -, hcn⟩ := List.mem_map.mp h
    revert hcn
    cases colsGet ((dlookup schema1.columns t).getD []) cn with
    | some col => intro hcn; exact Or.inr (Or.inr (Or.inl ⟨cn, col, hcn.symm⟩))
    | none => intro hcn; exact Or.inr (Or.inr (Or.inr hcn.symm))

theorem gtm_elem_head (t : String) (schema1 schema2 : Schema) (a r c : List String)
    (s : String) (hs : s ∈ generate_table_modifications t schema1 schema2 a r c) :
    s.data.head? = some 'A' ∨ s = "" := by
  rcases gtm_mem_shape t schema1 schema2 a r c s hs with
    ⟨cn, col, rfl⟩ | ⟨cn, rfl⟩ | ⟨cn, col, rfl⟩ | rfl
  · obtain ⟨q, hq⟩ := addColumnStmt_shape t cn col
    exact Or.inl (head_of_shape t _ 'A' q hq)
  · obtain ⟨q, hq⟩ := dropColumnStmt_shape t cn
    exact Or.inl (head_of_shape t _ 'D' q hq)
  · obtain ⟨q, hq⟩ := modifyColumnStmt_shape t cn col
    exact Or.inl (head_of_shape t _ 'M' q hq)
  · exact Or.inr rfl

theorem dlookup_mem {α : Type} (d : List (String × α)) (k : String) (v : α)
    (h : dlookup d k = some v) : (k, v) ∈ d := by
  unfold dlookup at h
  cases hf : (d.reverse.find? fun kv => kv.fst == k) with
  | none => rw [hf] at h; cases h
  | some kv =>
    rw [hf] at h
    have hm : kv ∈ d.reverse := List.mem_of_find?_eq_some hf
    have hk : kv.fst = k := by simpa using List.find?_some hf
    have hv : kv.snd = v := by simpa using h
    have hkv : kv = (k, v) := Prod.ext hk hv
    exact hkv ▸ List.mem_reverse.mp hm

theorem header_elem_head (d1 d2 now s : String) (hs : s ∈ structureHeader d1 d2 now) :
    s.data.head? = some '-' ∨ s.data.head? = some 'U' ∨ s.data.head? = some 'S' ∨
      s.data.head? = none := by
  simp only [structureHeader, List.mem_cons, List.not_mem_nil, or_false] at hs
  rcases hs with rfl|rfl|rfl|rfl|rfl|rfl|rfl|rfl|rfl|rfl
  · exact Or.inl rfl
  · exact Or.inl rfl
  · exact Or.inl rfl
  · exact Or.inl rfl
  · exact Or.inl (head_append _ _ '-' rfl)
  · exact Or.inl (head_append _ _ '-' (head_append _ _ '-' (head_append _ _ '-' rfl)))
  · exact Or.inr (Or.inr (Or.inr rfl))
  · exact Or.inr (Or.inl (head_append _ _ 'U' (head_append _ _ 'U' rfl)))
  · exact Or.inr (Or.inr (Or.inl rfl))
  · exact Or.inr (Or.inr (Or.inr rfl))

theorem dropBlock_elem_head (t s : String) (hs : s ∈ dropBlock t) :
    s.data.head? = some '-' ∨ s.data.head? = some 'D' ∨ s.data.head? = none := by
  simp only [dropBlock, List.mem_cons, List.not_mem_nil, or_false] at hs
  rcases hs with rfl|rfl|rfl
  · exact Or.inl (head_append _ _ '-' rfl)
  · exact Or.inr (Or.inl (head_append _ _ 'D' (head_append _ _ 'D' rfl)))
  · exact Or.inr (Or.inr rfl)

theorem createBlock_elem_head (schema1 schema2 : Schema) (ord : SetOrders) (u s : String)
    (hcreate : ∀ p ∈ schema1.tables, strStarts "CREATE TABLE" p.2.create_statement = true)
    (hs : s ∈ createOrAlterBlock schema1 schema2 ord u) :
    s.data.head? = some '-' ∨ s.data.head? = some 'C' ∨ s.data.head? = some 'A' ∨
      s.data.head? = none := by
  unfold createOrAlterBlock at hs
  revert hs
  cases h2 : dlookup schema2.tables u with
  | none =>
    cases h1 : dlookup schema1.tables u with
    | none => intro hs; simp at hs
    | some tb =>
      intro hs
      simp only [List.mem_cons, List.not_mem_nil, or_false] at hs
      rcases hs with rfl|rfl|rfl
      · exact Or.inl (head_append _ _ '-' rfl)
      · have hcs := hcreate _ (dlookup_mem schema1.tables u tb h1)
        have hh := strStarts_head "CREATE TABLE" tb.create_statement 'C' _ rfl hcs
        exact Or.inr (Or.inl (head_append _ _ 'C' hh))
      · exact Or.inr (Or.inr (Or.inr rfl))
  | some tb2 =>
    intro hs
    rcases List.mem_append.mp hs with hs | hs
    · rcases List.mem_append.mp hs with hs | hs
      · rw [List.mem_singleton.mp hs]
        exact Or.inl (head_append _ _ '-' rfl)
      · rcases gtm_elem_head u schema1 schema2 _ _ _ s hs with hh | rfl
        · exact Or.inr (Or.inr (Or.inl hh))
        · exact Or.inr (Or.inr (Or.inr rfl))
    · rw [List.mem_singleton.mp hs]
      exact Or.inr (Or.inr (Or.inr rfl))

/-- Claim C7: in the generated structure script, every `DROP TABLE`
statement precedes every `CREATE TABLE` and every `ALTER TABLE`
statement, provided the captured create statements really start with
`CREATE TABLE` (as `SHOW CREATE TABLE` output does). -/
theorem C7_drop_statements_first (selections : Selections) (schema1 schema2 : Schema)
    (db1_name db2_name now : String) (ord : SetOrders)
    (hcreate : ∀ p ∈ schema1.tables, strStarts "CREATE TABLE" p.2.create_statement = true) :
    ∀ i j
      (hi : i < (generate_structure_sql selections schema1 schema2 db1_name db2_name now ord).length)
      (hj : j < (generate_structure_sql selections schema1 schema2 db1_name db2_name now ord).length),
      strStarts "DROP TABLE"
        ((generate_structure_sql selections schema1 schema2 db1_name db2_name now ord).get ⟨i, hi⟩) = true →
      (strStarts "CREATE TABLE"
          ((generate_structure_sql selections schema1 schema2 db1_name db2_name now ord).get ⟨j, hj⟩) ||
        strStarts "ALTER TABLE"
          ((generate_structure_sql selections schema1 schema2 db1_name db2_name now ord).get ⟨j, hj⟩)) = true →
      i < j := by
  set H := structureHeader db1_name db2_name now with hH
  set Dr := selections.drop_tables.flatMap dropBlock with hDr
  set Cr := (tablesToCreate selections schema1).flatMap (createOrAlterBlock schema1 schema2 ord) with hCr
  have hXe : ∀ s ∈ H ++ Dr,
      (strStarts "CREATE TABLE" s || strStarts "ALTER TABLE" s) = false := by
    intro s hs
    rcases List.mem_append.mp hs with hs | hs
    · rcases header_elem_head db1_name db2_name now s hs with hh|hh|hh|hh <;>
        exact ca_false_of_head s (by rw [hh]; decide) (by rw [hh]; decide)
    · obtain ⟨u, -, hu⟩ := List.mem_flatMap.mp hs
      rcases dropBlock_elem_head u s hu with hh|hh|hh <;>
        exact ca_false_of_head s (by rw [hh]; decide) (by rw [hh]; decide)
  have hYe : ∀ s ∈ Cr ++ ["SET FOREIGN_KEY_CHECKS = 1;"],
      strStarts "DROP TABLE" s = false := by
    intro s hs
    rcases List.mem_append.mp hs with hs | hs
    · obtain ⟨u, -, hu⟩ := List.mem_flatMap.mp hs
      rcases createBlock_elem_head schema1 schema2 ord u s hcreate hu with hh|hh|hh|hh <;>
        exact strStarts_false_of_head "DROP TABLE" s 'D' _ rfl (by rw [hh]; decide)
    · rw [List.mem_singleton.mp hs]
      exact strStarts_false_of_head "DROP TABLE" _ 'D' _ rfl (by decide)
  have h1 := region_lt (H ++ Dr) (Cr ++ ["SET FOREIGN_KEY_CHECKS = 1;"])
    (strStarts "DROP TABLE")
    (fun s => strStarts "CREATE TABLE" s || strStarts "ALTER TABLE" s)
    hYe hXe
  rw [← List.append_assoc] at h1
  have hL : generate_structure_sql selections schema1 schema2 db1_name db2_name now ord =
      ((H ++ Dr) ++ Cr) ++ ["SET FOREIGN_KEY_CHECKS = 1;"] := rfl
  rw [hL]
  exact h1

theorem backtick_prefix_eq : ∀ (a b : List Char), '`' ∉ a → '`' ∉ b → ∀ r : List Char,
    (a ++ ['`']) <+: (b ++ '`' :: r) → a = b := by
  intro a
  induction a with
  | nil =>
    intro b _ hb r h
    cases b with
    | nil => rfl
    | cons y ys =>
      rw [List.nil_append,
        show (y :: ys) ++ '`' :: r = y :: (ys ++ '`' :: r) from rfl,
        List.cons_prefix_cons] at h
      exact absurd (h.1 ▸ List.mem_cons_self y ys) hb
  | cons x xs ih =>
    intro b ha hb r h
    cases b with
    | nil =>
      rw [List.nil_append,
        show (x :: xs) ++ ['`'] = x :: (xs ++ ['`']) from rfl,
        List.cons_prefix_cons] at h
      exact absurd (h.1 ▸ List.mem_cons_self x xs) ha
    | cons y ys =>
      rw [show (x :: xs) ++ ['`'] = x :: (xs ++ ['`']) from rfl,
        show (y :: ys) ++ '`' :: r = y :: (ys ++ '`' :: r) from rfl,
        List.cons_prefix_cons] at h
      obtain ⟨hxy, h'⟩ := h
      have ha' : '`' ∉ xs := fun hm => ha (List.mem_cons_of_mem x hm)
      have hb' : '`' ∉ ys := fun hm => hb (List.mem_cons_of_mem y hm)
      rw [hxy, ih ys ha' hb' r h']

theorem alterFor_data (t : String) :
    ("ALTER TABLE `" ++ t ++ "`").data =
      'A' :: ("LTER TABLE `".data ++ (t.data ++ ['`'])) := by
  have lit1 : ("ALTER TABLE `" : String).data = 'A' :: "LTER TABLE `".data := rfl
  have litb : ("`" : String).data = ['`'] := rfl
  simp [String.data_append, lit1, litb, List.append_assoc]

theorem isAlterFor_eq_table (u t : String) (hbu : '`' ∉ u.data) (hbt : '`' ∉ t.data)
    (K : Char) (q : List Char) (s : String)
    (hs : s.data = "ALTER TABLE `".data ++ t.data ++ ('`' :: ' ' :: K :: q))
    (h : strStarts ("ALTER TABLE `" ++ u ++ "`") s = true) : u = t := by
  unfold strStarts at h
  rw [List.isPrefixOf_iff_prefix, hs] at h
  have hP : ("ALTER TABLE `" ++ u ++ "`").data =
      "ALTER TABLE `".data ++ (u.data ++ ['`']) := by
    have litb : ("`" : String).data = ['`'] := rfl
    simp [String.data_append, litb, List.append_assoc]
  rw [hP, List.append_assoc] at h
  have h' := (List.prefix_append_right_inj "ALTER TABLE `".data).mp h
  exact String.ext (backtick_prefix_eq u.data t.data hbu hbt (' ' :: K :: q) h')

theorem ne_of_head (s r : String) (h : s.data.head? ≠ r.data.head?) : s ≠ r :=
  fun he => h (he ▸ rfl)

theorem dropStmt_inj (u t : String)
    (h : ("DROP TABLE IF EXISTS `" ++ u ++ "`;" : String) =
      "DROP TABLE IF EXISTS `" ++ t ++ "`;") : u = t := by
  have hd := congrArg String.data h
  simp only [String.data_append] at hd
  exact String.ext (List.append_cancel_left (List.append_cancel_right hd))

theorem append_semicolon_inj (x y : String) (h : x ++ ";" = y ++ ";") : x = y := by
  have hd := congrArg String.data h
  simp only [String.data_append] at hd
  exact String.ext (List.append_cancel_right hd)

theorem count_map_ite (l : List String) (t : String) :
    (l.map fun u => if u = t then (1 : Nat) else 0).sum = l.count t := by
  induction l with
  | nil => rfl
  | cons a l ih =>
    rw [List.map_cons, List.sum_cons, ih, List.count_cons]
    by_cases h : a = t
    · simp [h]
      omega
    · simp [h]

/-- Claim C8: for a table selected for structure sync that is present in
the source and absent from the target, the structure script contains the
source's captured CREATE statement verbatim exactly once, no
`ALTER TABLE` statement for that table, and no `DROP TABLE` statement for
it.  Hypotheses: the selection picks the table exactly once and does not
also drop it (a well-formed Selection maps each table to one action),
captured create statements start with `CREATE TABLE` and are distinct
across tables, and table names contain no backtick. -/
theorem C8_new_table_single_create (selections : Selections) (schema1 schema2 : Schema)
    (db1_name db2_name now : String) (ord : SetOrders) (t : String) (tb : TableInfo)
    (hs1 : dlookup schema1.tables t = some tb)
    (hs2 : dlookup schema2.tables t = none)
    (hsel : (selections.structure_only ++ selections.structure_and_data).count t = 1)
    (hdrop : t ∉ selections.drop_tables)
    (hcreate : ∀ p ∈ schema1.tables, strStarts "CREATE TABLE" p.2.create_statement = true)
    (huniq : ∀ p ∈ schema1.tables, p.1 ≠ t → p.2.create_statement ≠ tb.create_statement)
    (hbt : '`' ∉ t.data)
    (hb2 : ∀ p ∈ schema2.tables, '`' ∉ p.1.data) :
    (generate_structure_sql selections schema1 schema2 db1_name db2_name now ord).count
        (tb.create_statement ++ ";") = 1 ∧
    (∀ s ∈ generate_structure_sql selections schema1 schema2 db1_name db2_name now ord,
      strStarts ("ALTER TABLE `" ++ t ++ "`") s = false) ∧
    ("DROP TABLE IF EXISTS `" ++ t ++ "`;") ∉
      generate_structure_sql selections schema1 schema2 db1_name db2_name now ord := by
  classical
  have hchead : (tb.create_statement ++ ";").data.head? = some 'C' :=
    head_append _ _ 'C'
      (strStarts_head "CREATE TABLE" tb.create_statement 'C' _ rfl
        (hcreate _ (dlookup_mem schema1.tables t tb hs1)))
  set H := structureHeader db1_name db2_name now with hH
  set Dr := selections.drop_tables.flatMap dropBlock with hDr
  set Cr := (tablesToCreate selections schema1).flatMap
    (createOrAlterBlock schema1 schema2 ord) with hCr
  have hL : generate_structure_sql selections schema1 schema2 db1_name db2_name now ord =
      ((H ++ Dr) ++ Cr) ++ ["SET FOREIGN_KEY_CHECKS = 1;"] := rfl
  refine ⟨?_, ?_, ?_⟩
  · -- exactly one verbatim CREATE statement
    rw [hL, List.count_append, List.count_append, List.count_append]
    have hnotH : (tb.create_statement ++ ";") ∉ H := by
      intro hm
      rcases header_elem_head db1_name db2_name now _ hm with hh|hh|hh|hh <;>
        exact absurd (hchead.symm.trans hh) (by decide)
    have hnotDr : (tb.create_statement ++ ";") ∉ Dr := by
      intro hm
      obtain ⟨u, -, hu⟩ := List.mem_flatMap.mp hm
      rcases dropBlock_elem_head u _ hu with hh|hh|hh <;>
        exact absurd (hchead.symm.trans hh) (by decide)
    have cCr : Cr.count (tb.create_statement ++ ";") = 1 := by
      rw [hCr, List.count_flatMap]
      have hmap : ((tablesToCreate selections schema1).map
          (List.count (tb.create_statement ++ ";") ∘ createOrAlterBlock schema1 schema2 ord)) =
          ((tablesToCreate selections schema1).map fun u => if u = t then 1 else 0) := by
        apply List.map_congr_left
        intro u hu
        simp only [Function.comp]
        by_cases hut : u = t
        · subst hut
          simp only [createOrAlterBlock, hs2, hs1]
          rw [if_pos trivial]
          have hne1 : ("-- Creating table " ++ u) ≠ tb.create_statement ++ ";" :=
            ne_of_head _ _ (by rw [head_append "-- Creating table " u '-' rfl, hchead]; decide)
          have hne2 : ("" : String) ≠ tb.create_statement ++ ";" :=
            ne_of_head _ _ (by rw [hchead]; decide)
          simp [List.count_cons, hne1, hne2]
        · rw [if_neg hut]
          revert hu
          simp only [createOrAlterBlock]
          cases h2 : dlookup schema2.tables u with
          | some tb2 =>
            intro hu
            apply List.count_eq_zero_of_not_mem
            intro hm
            rcases List.mem_append.mp hm with hm | hm
            · rcases List.mem_append.mp hm with hm | hm
              · have := List.mem_singleton.mp hm
                exact absurd (this ▸ hchead) (by
                  rw [head_append "-- Modifying table structure " u '-' rfl]; decide)
              · rcases gtm_elem_head u schema1 schema2 _ _ _ _ hm with hh | hh
                · exact absurd (hchead.symm.trans hh) (by decide)
                · exact absurd (hh ▸ hchead) (by decide)
            · have := List.mem_singleton.mp hm
              exact absurd (this ▸ hchead) (by decide)
          | none =>
            cases h1 : dlookup schema1.tables u with
            | none => intro hu; rfl
            | some tbu =>
              intro hu
              apply List.count_eq_zero_of_not_mem
              intro hm
              simp only [List.mem_cons, List.not_mem_nil, or_false] at hm
              rcases hm with hm|hm|hm
              · exact absurd (hm ▸ hchead) (by
                  rw [head_append "-- Creating table " u '-' rfl]; decide)
              · exact huniq (u, tbu) (dlookup_mem _ _ _ h1) hut
                  (append_semicolon_inj _ _ hm.symm)
              · exact absurd (hm ▸ hchead) (by decide)
      rw [hmap, count_map_ite]
      unfold tablesToCreate
      rw [List.count_filter (by simp [hs1])]
      exact hsel
    rw [cCr, List.count_eq_zero_of_not_mem hnotH, List.count_eq_zero_of_not_mem hnotDr]
    have cF : List.count (tb.create_statement ++ ";") ["SET FOREIGN_KEY_CHECKS = 1;"] = 0 := by
      apply List.count_eq_zero_of_not_mem
      intro hm
      rw [List.mem_singleton] at hm
      exact absurd (hm ▸ hchead) (by decide)
    rw [cF]
  · -- no ALTER statement for the new table
    intro s hs
    rw [hL] at hs
    rcases List.mem_append.mp hs with hs | hs
    · rcases List.mem_append.mp hs with hs | hs
      · rcases List.mem_append.mp hs with hs | hs
        · rcases header_elem_head db1_name db2_name now s hs with hh|hh|hh|hh <;>
            exact strStarts_false_of_head _ s 'A' _ (alterFor_data t) (by rw [hh]; decide)
        · obtain ⟨u, -, hu⟩ := List.mem_flatMap.mp hs
          rcases dropBlock_elem_head u s hu with hh|hh|hh <;>
            exact strStarts_false_of_head _ s 'A' _ (alterFor_data t) (by rw [hh]; decide)
      · obtain ⟨u, -, hu⟩ := List.mem_flatMap.mp hs
        revert hu
        simp only [createOrAlterBlock]
        cases h2 : dlookup schema2.tables u with
        | none =>
          cases h1 : dlookup schema1.tables u with
          | none => intro hu; simp at hu
          | some tbu =>
            intro hu
            simp only [List.mem_cons, List.not_mem_nil, or_false] at hu
            rcases hu with rfl|rfl|rfl
            · exact strStarts_false_of_head _ _ 'A' _ (alterFor_data t)
                (by rw [head_append "-- Creating table " u '-' rfl]; decide)
            · have hh := head_append tbu.create_statement (";" : String) 'C'
                (strStarts_head "CREATE TABLE" _ 'C' _ rfl
                  (hcreate _ (dlookup_mem _ _ _ h1)))
              exact strStarts_false_of_head _ _ 'A' _ (alterFor_data t) (by rw [hh]; decide)
            · exact strStarts_false_of_head _ _ 'A' _ (alterFor_data t) (by decide)
        | some tb2 =>
          intro hu
          have hbu : '`' ∉ u.data := hb2 (u, tb2) (dlookup_mem _ _ _ h2)
          rcases List.mem_append.mp hu with hu | hu
          · rcases List.mem_append.mp hu with hu | hu
            · rw [List.mem_singleton.mp hu]
              exact strStarts_false_of_head _ _ 'A' _ (alterFor_data t)
                (by rw [head_append "-- Modifying table structure " u '-' rfl]; decide)
            · rcases gtm_mem_shape u schema1 schema2 _ _ _ s hu with
                ⟨cn, col, rfl⟩|⟨cn, rfl⟩|⟨cn, col, rfl⟩|rfl
              · obtain ⟨q, hq⟩ := addColumnStmt_shape u cn col
                rw [Bool.eq_false_iff]
                intro hTrue
                have heq := isAlterFor_eq_table t u hbt hbu 'A' q _ hq hTrue
                rw [heq] at hs2
                rw [hs2] at h2
                cases h2
              · obtain ⟨q, hq⟩ := dropColumnStmt_shape u cn
                rw [Bool.eq_false_iff]
                intro hTrue
                have heq := isAlterFor_eq_table t u hbt hbu 'D' q _ hq hTrue
                rw [heq] at hs2
                rw [hs2] at h2
                cases h2
              · obtain ⟨q, hq⟩ := modifyColumnStmt_shape u cn col
                rw [Bool.eq_false_iff]
                intro hTrue
                have heq := isAlterFor_eq_table t u hbt hbu 'M' q _ hq hTrue
                rw [heq] at hs2
                rw [hs2] at h2
                cases h2
              · exact strStarts_false_of_head _ _ 'A' _ (alterFor_data t) (by decide)
          · rw [List.mem_singleton.mp hu]
            exact strStarts_false_of_head _ _ 'A' _ (alterFor_data t) (by decide)
    · rw [List.mem_singleton.mp hs]
      exact strStarts_false_of_head _ _ 'A' _ (alterFor_data t) (by decide)
  · -- no DROP statement for the new table
    intro hm
    have hdhead : ("DROP TABLE IF EXISTS `" ++ t ++ "`;").data.head? = some 'D' :=
      head_append _ _ 'D' (head_append _ _ 'D' rfl)
    rw [hL] at hm
    rcases List.mem_append.mp hm with hm | hm
    · rcases List.mem_append.mp hm with hm | hm
      · rcases List.mem_append.mp hm with hm | hm
        · rcases header_elem_head db1_name db2_name now _ hm with hh|hh|hh|hh <;>
            exact absurd (hdhead.symm.trans hh) (by decide)
        · obtain ⟨u, humem, hu⟩ := List.mem_flatMap.mp hm
          simp only [dropBlock, List.mem_cons, List.not_mem_nil, or_false] at hu
          rcases hu with hu|hu|hu
          · exact absurd (hu ▸ hdhead) (by
              rw [head_append "-- Removing table " u '-' rfl]; decide)
          · exact hdrop ((dropStmt_inj t u hu) ▸ humem)
          · exact absurd (hu ▸ hdhead) (by decide)
      · obtain ⟨u, -, hu⟩ := List.mem_flatMap.mp hm
        revert hu
        simp only [createOrAlterBlock]
        cases h2 : dlookup schema2.tables u with
        | none =>
          cases h1 : dlookup schema1.tables u with
          | none => intro hu; simp at hu
          | some tbu =>
            intro hu
            simp only [List.mem_cons, List.not_mem_nil, or_false] at hu
            rcases hu with hu|hu|hu
            · exact absurd (hu ▸ hdhead) (by
                rw [head_append "-- Creating table " u '-' rfl]; decide)
            · have hh := head_append tbu.create_statement (";" : String) 'C'
                (strStarts_head "CREATE TABLE" _ 'C' _ rfl
                  (hcreate _ (dlookup_mem _ _ _ h1)))
              exact absurd ((hu ▸ hdhead).symm.trans hh) (by decide)
            · exact absurd (hu ▸ hdhead) (by decide)
        | some tb2 =>
          intro hu
          rcases List.mem_append.mp hu with hu | hu
          · rcases List.mem_append.mp hu with hu | hu
            · have := List.mem_singleton.mp hu
              exact absurd (this ▸ hdhead) (by
                rw [head_append "-- Modifying table structure " u '-' rfl]; decide)
            · rcases gtm_elem_head u schema1 schema2 _ _ _ _ hu with hh | hh
              · exact absurd (hdhead.symm.trans hh) (by decide)
              · exact absurd (hh ▸ hdhead) (by decide)
          · have := List.mem_singleton.mp hu
            exact absurd (this ▸ hdhead) (by decide)
    · have := List.mem_singleton.mp hm
      exact absurd (this ▸ hdhead) (by decide)

theorem strStarts_append_left (p q x : String) (h : strStarts p q = true) :
    strStarts p (q ++ x) = true := by
  unfold strStarts at h ⊢
  rw [List.isPrefixOf_iff_prefix] at h ⊢
  rw [String.data_append]
  exact h.trans (List.prefix_append q.data x.data)

theorem strEnds_append_right (p x q : String) (h : strEnds p q = true) :
    strEnds p (x ++ q) = true := by
  unfold strEnds at h ⊢
  rw [List.isSuffixOf_iff_suffix] at h ⊢
  rw [String.data_append]
  exact h.trans (List.suffix_append x.data q.data)

theorem dataBlock_elem_ok (schema1 : Schema) (cfg : DbConfig) (u s : String)
    (hs : s ∈ dataTableBlock schema1 cfg u) : dataLineOk s = true := by
  revert hs
  unfold dataTableBlock
  cases h1 : dlookup schema1.tables u with
  | none => intro hs; simp at hs
  | some tbu =>
    intro hs
    rcases List.mem_append.mp hs with hs | hs
    · rcases List.mem_append.mp hs with hs | hs
      · simp only [List.mem_cons, List.not_mem_nil, or_false] at hs
        rcases hs with rfl|rfl
        · have hc : strStarts "--" ("-- Synchronizing data for table " ++ u ++ " (" ++
              commaFmt tbu.rows ++ " records)") = true := by
            refine strStarts_append_left _ _ _ ?_
            refine strStarts_append_left _ _ _ ?_
            refine strStarts_append_left _ _ _ ?_
            refine strStarts_append_left _ _ _ ?_
            decide
          simp [dataLineOk, hc]
        · have hc : strStarts "TRUNCATE TABLE `" ("TRUNCATE TABLE `" ++ u ++ "`;") = true := by
            refine strStarts_append_left _ _ _ ?_
            refine strStarts_append_left _ _ _ ?_
            decide
          simp [dataLineOk, hc]
      · by_cases hr : tbu.rows > 0
        · rw [if_pos hr] at hs
          simp only [List.mem_cons, List.not_mem_nil, or_false] at hs
          rcases hs with rfl|rfl|rfl|rfl
          · have hins : strStarts "INSERT INTO `" ("INSERT INTO `" ++ u ++ "` (`" ++
                String.intercalate "`, `"
                  (colNames ((dlookup schema1.columns u).getD [])) ++ "`) VALUES") = true := by
              refine strStarts_append_left _ _ _ ?_
              refine strStarts_append_left _ _ _ ?_
              refine strStarts_append_left _ _ _ ?_
              refine strStarts_append_left _ _ _ ?_
              decide
            have hval : strEnds " VALUES" ("INSERT INTO `" ++ u ++ "` (`" ++
                String.intercalate "`, `"
                  (colNames ((dlookup schema1.columns u).getD [])) ++ "`) VALUES") = true := by
              refine strEnds_append_right _ _ _ ?_
              decide
            simp [dataLineOk, hins, hval]
          · have hc : strStarts "--" ("-- WARNING: Data for table " ++ u ++
                " must be exported separately") = true := by
              refine strStarts_append_left _ _ _ ?_
              refine strStarts_append_left _ _ _ ?_
              decide
            simp [dataLineOk, hc]
          · have hc : strStarts "--" ("-- due to large volume (" ++ commaFmt tbu.rows ++
                " records)") = true := by
              refine strStarts_append_left _ _ _ ?_
              refine strStarts_append_left _ _ _ ?_
              decide
            simp [dataLineOk, hc]
          · have hc : strStarts "--" ("-- Use: mysqldump -h " ++ cfg.database1ip ++ " -u " ++
                cfg.database1user ++ " -p " ++ cfg.database1name ++ " " ++ u ++
                " --no-create-info") = true := by
              refine strStarts_append_left _ _ _ ?_
              refine strStarts_append_left _ _ _ ?_
              refine strStarts_append_left _ _ _ ?_
              refine strStarts_append_left _ _ _ ?_
              refine strStarts_append_left _ _ _ ?_
              refine strStarts_append_left _ _ _ ?_
              refine strStarts_append_left _ _ _ ?_
              refine strStarts_append_left _ _ _ ?_
              decide
            simp [dataLineOk, hc]
        · rw [if_neg hr] at hs
          simp at hs
    · rw [List.mem_singleton.mp hs]
      decide

/-- Claim C9 (amended): for every table in the structure+data selection
that exists in the source model WITH A POSITIVE RECORDED ROW COUNT, the
data script contains a `TRUNCATE TABLE` statement for it, the bare
`INSERT` column header, and the export-externally warning comment; and
every line of the data script is a comment, blank, `USE`,
`FOREIGN_KEY_CHECKS` toggle, `TRUNCATE`, or `INSERT` header ending in
`VALUES` — never literal row values.  (At row count zero the marker block
is skipped; see the counterexample.) -/
theorem C9_truncate_and_export_marker (selections : Selections) (schema1 : Schema)
    (db2_name now : String) (cfg : DbConfig) (t : String) (tb : TableInfo)
    (hmem : t ∈ selections.structure_and_data)
    (htab : dlookup schema1.tables t = some tb)
    (hrows : 0 < tb.rows) :
    ("TRUNCATE TABLE `" ++ t ++ "`;") ∈
      generate_data_sql selections schema1 db2_name now cfg ∧
    ("INSERT INTO `" ++ t ++ "` (`" ++
        String.intercalate "`, `" (colNames ((dlookup schema1.columns t).getD [])) ++
        "`) VALUES") ∈ generate_data_sql selections schema1 db2_name now cfg ∧
    ("-- WARNING: Data for table " ++ t ++ " must be exported separately") ∈
      generate_data_sql selections schema1 db2_name now cfg ∧
    ∀ s ∈ generate_data_sql selections schema1 db2_name now cfg, dataLineOk s = true := by
  have hnotempty : selections.structure_and_data.isEmpty = false := by
    cases hl : selections.structure_and_data with
    | nil => rw [hl] at hmem; cases hmem
    | cons a l => rfl
  have hL : generate_data_sql selections schema1 db2_name now cfg =
      ["-- Data Synchronization Script",
       "-- Generated by: MariaDB Advanced Database Synchronizer",
       "-- Author: João Cortez (jbcortezf@gmail.com)",
       "-- GitHub: https://github.com/jbcortezf/adjust-mariadb",
       "-- Generated on: " ++ now,
       "",
       "USE `" ++ db2_name ++ "`;",
       "SET FOREIGN_KEY_CHECKS = 0;",
       ""] ++
      selections.structure_and_data.flatMap (dataTableBlock schema1 cfg) ++
      ["SET FOREIGN_KEY_CHECKS = 1;"] := by
    unfold generate_data_sql
    rw [hnotempty]
    rfl
  have hblockmem : ∀ x ∈ dataTableBlock schema1 cfg t,
      x ∈ generate_data_sql selections schema1 db2_name now cfg := by
    intro x hx
    rw [hL]
    exact List.mem_append.mpr (Or.inl (List.mem_append.mpr (Or.inr
      (List.mem_flatMap.mpr ⟨t, hmem, hx⟩))))
  have hblock : dataTableBlock schema1 cfg t =
      ["-- Synchronizing data for table " ++ t ++ " (" ++ commaFmt tb.rows ++ " records)",
       "TRUNCATE TABLE `" ++ t ++ "`;"] ++
      ["INSERT INTO `" ++ t ++ "` (`" ++
          String.intercalate "`, `" (colNames ((dlookup schema1.columns t).getD [])) ++
          "`) VALUES",
       "-- WARNING: Data for table " ++ t ++ " must be exported separately",
       "-- due to large volume (" ++ commaFmt tb.rows ++ " records)",
       "-- Use: mysqldump -h " ++ cfg.database1ip ++ " -u " ++ cfg.database1user ++
         " -p " ++ cfg.database1name ++ " " ++ t ++ " --no-create-info"] ++
      [""] := by
    simp [dataTableBlock, htab, hrows]
  refine ⟨?_, ?_, ?_, ?_⟩
  · exact hblockmem _ (by rw [hblock]; simp)
  · exact hblockmem _ (by rw [hblock]; simp)
  · exact hblockmem _ (by rw [hblock]; simp)
  · intro s hs
    rw [hL] at hs
    rcases List.mem_append.mp hs with hs | hs
    · rcases List.mem_append.mp hs with hs | hs
      · simp only [List.mem_cons, List.not_mem_nil, or_false] at hs
        rcases hs with rfl|rfl|rfl|rfl|rfl|rfl|rfl|rfl|rfl
        · decide
        · decide
        · decide
        · decide
        · have hc : strStarts "--" ("-- Generated on: " ++ now) = true :=
            strStarts_append_left _ _ _ (by decide)
          simp [dataLineOk, hc]
        · decide
        · have hc : strStarts "USE `" ("USE `" ++ db2_name ++ "`;") = true :=
            strStarts_append_left _ _ _ (strStarts_append_left _ _ _ (by decide))
          simp [dataLineOk, hc]
        · decide
        · decide
      · obtain ⟨u, -, hu⟩ := List.mem_flatMap.mp hs
        exact dataBlock_elem_ok schema1 cfg u s hu
    · rw [List.mem_singleton.mp hs]
      decide

/-- Claim C10: when no table is selected for structure+data, the data
generator returns the empty list — no header, `USE`, or
`FOREIGN_KEY_CHECKS` statements — while the structure generator still
begins with its header comment and contains both `FOREIGN_KEY_CHECKS`
statements. -/
theorem C10_empty_data_selection (selections : Selections) (schema1 schema2 : Schema)
    (db1_name db2_name now : String) (cfg : DbConfig) (ord : SetOrders)
    (h : selections.structure_and_data = []) :
    generate_data_sql selections schema1 db2_name now cfg = [] ∧
    (generate_structure_sql selections schema1 schema2 db1_name db2_name now ord).head? =
      some "-- Structure Synchronization Script" ∧
    "SET FOREIGN_KEY_CHECKS = 0;" ∈
      generate_structure_sql selections schema1 schema2 db1_name db2_name now ord ∧
    "SET FOREIGN_KEY_CHECKS = 1;" ∈
      generate_structure_sql selections schema1 schema2 db1_name db2_name now ord := by
  refine ⟨?_, rfl, ?_, ?_⟩
  · simp [generate_data_sql, h]
  · simp [generate_structure_sql, structureHeader]
  · simp [generate_structure_sql, structureHeader]

theorem C1_witness : table_has_differences "orders" srcSchema tgtSchema = true :=
  (C1_table_modified_iff "orders" srcSchema tgtSchema
      [colId, colStatus20, colCreated] [colId, colStatus10, colOld]
      (by decide) (by decide)).mpr
    (Or.inr ⟨"status", colStatus20, colStatus10, by decide, by decide, by decide⟩)

/-- Claim C2 is false as stated: the two-element list with `b` before `a`
is a legitimate enumeration of the added-column set (CPython specifies no
set order), and with it the generator emits the `ADD COLUMN` statements
with `b` before `a`, not in ascending name order. -/
theorem C2_counterexample :
    IsIterOf ["b", "a"] (addBase "t" abSrc abTgt) ∧
    IsIterOf [] (removedBase "t" abSrc abTgt) ∧
    IsIterOf [] (commonBase "t" abSrc abTgt) ∧
    generate_table_modifications "t" abSrc abTgt ["b", "a"] [] [] =
      ["ALTER TABLE `t` ADD COLUMN `b` int(11) NULL;",
       "ALTER TABLE `t` ADD COLUMN `a` int(11) NULL;"] ∧
    lexLeb "b".data "a".data = false :=
  ⟨⟨by decide, by decide⟩, ⟨by decide, by decide⟩, ⟨by decide, by decide⟩,
    by decide, by decide⟩

theorem C2_operation_kind_order_witness :
    isAddColumnFor "orders"
      ((generate_table_modifications "orders" srcSchema tgtSchema ["created_at"] ["old_flag"]
          ["id", "status"]).get ⟨0, by decide⟩) = true ∧
    isDropColumnFor "orders"
      ((generate_table_modifications "orders" srcSchema tgtSchema ["created_at"] ["old_flag"]
          ["id", "status"]).get ⟨1, by decide⟩) = true ∧
    isModifyColumnFor "orders"
      ((generate_table_modifications "orders" srcSchema tgtSchema ["created_at"] ["old_flag"]
          ["id", "status"]).get ⟨2, by decide⟩) = true ∧
    (0 : Nat) < 1 ∧ (0 : Nat) < 2 ∧ (1 : Nat) < 2 :=
  ⟨by decide, by decide, by decide,
    (C2_operation_kind_order "orders" srcSchema tgtSchema ["created_at"] ["old_flag"]
        ["id", "status"]).1 0 1 (by decide) (by decide) (by decide) (by decide),
    (C2_operation_kind_order "orders" srcSchema tgtSchema ["created_at"] ["old_flag"]
        ["id", "status"]).2.1 0 2 (by decide) (by decide) (by decide) (by decide),
    (C2_operation_kind_order "orders" srcSchema tgtSchema ["created_at"] ["old_flag"]
        ["id", "status"]).2.2 1 2 (by decide) (by decide) (by decide) (by decide)⟩

/-- Claim C3 is false as stated: two runs over identical classification,
selection and schema inputs, one second apart, produce different
statement lists — the generated-on header line embeds the current
timestamp. -/
theorem C3_counterexample :
    generate_structure_sql exSelections srcSchema tgtSchema "db1" "db2"
        "2025-01-01 10:00:00" exOrders ≠
      generate_structure_sql exSelections srcSchema tgtSchema "db1" "db2"
        "2025-01-01 10:00:01" exOrders := by
  intro h
  have h4 := congrArg (fun l => l[4]?) h
  simp only at h4
  exact absurd h4 (by decide)

theorem C3_witness :
    (generate_structure_sql exSelections srcSchema tgtSchema "db1" "db2" "A" exOrders)[0]? =
      (generate_structure_sql exSelections srcSchema tgtSchema "db1" "db2" "B" exOrders)[0]? :=
  (C3_header_timestamp_only exSelections srcSchema tgtSchema "db1" "db2" "A" "B" exOrders).2
    0 (by decide)

theorem C4_witness :
    modifySelected "orders" srcSchema tgtSchema "status" = true ∧
    modifyColumnStmt "orders" "status" colStatus20 ∈
      generate_table_modifications "orders" srcSchema tgtSchema ["created_at"] ["old_flag"]
        ["id", "status"] :=
  ⟨by decide,
    (C4_source_side_clauses "orders" srcSchema tgtSchema tgtSchema ["created_at"] ["old_flag"]
        ["id", "status"]).2.2 "status" colStatus20 (by decide) (by decide) (by decide)⟩

theorem C6_witness :
    (analyze_differences srcSchema srcSchema).new_tables = [] ∧
    (analyze_differences srcSchema srcSchema).removed_tables = [] ∧
    (analyze_differences srcSchema srcSchema).modified_tables = [] ∧
    ("orders" ∈ (analyze_differences srcSchema srcSchema).identical_tables ↔
      "orders" ∈ srcSchema.tables.map Prod.fst) :=
  ⟨(C6_classify_self_identical srcSchema (by decide)).1,
    (C6_classify_self_identical srcSchema (by decide)).2.1,
    (C6_classify_self_identical srcSchema (by decide)).2.2.1,
    (C6_classify_self_identical srcSchema (by decide)).2.2.2 "orders"⟩

theorem C7_witness :
    strStarts "DROP TABLE"
      ((generate_structure_sql exSelections srcSchema tgtSchema "db1" "db2" "NOW" exOrders).get
        ⟨11, by decide⟩) = true ∧
    strStarts "CREATE TABLE"
      ((generate_structure_sql exSelections srcSchema tgtSchema "db1" "db2" "NOW" exOrders).get
        ⟨14, by decide⟩) = true ∧
    (11 : Nat) < 14 :=
  ⟨by decide, by decide,
    C7_drop_statements_first exSelections srcSchema tgtSchema "db1" "db2" "NOW" exOrders
      (by decide) 11 14 (by decide) (by decide) (by decide) (by decide)⟩

theorem C8_witness :
    (generate_structure_sql exSelections srcSchema tgtSchema "db1" "db2" "NOW" exOrders).count
        (usersInfo.create_statement ++ ";") = 1 ∧
    ("DROP TABLE IF EXISTS `" ++ "users" ++ "`;") ∉
      generate_structure_sql exSelections srcSchema tgtSchema "db1" "db2" "NOW" exOrders := by
  have h := C8_new_table_single_create exSelections srcSchema tgtSchema "db1" "db2" "NOW"
    exOrders "users" usersInfo (by decide) (by decide) (by decide) (by decide) (by decide)
    (by decide) (by decide) (by decide)
  exact ⟨h.1, h.2.2⟩

/-- Claim C9 is false as stated: table `p` is selected for
structure+data and exists in the source, yet because its recorded row
count is 0 the generated data script has its `TRUNCATE` but no
insert-columns header and no export-externally marker. -/
theorem C9_counterexample :
    "p" ∈ zeroSelections.structure_and_data ∧
    dlookup zeroSchema.tables "p" = some zeroInfo ∧
    generate_data_sql zeroSelections zeroSchema "db2" "2025-01-01 10:00:00" exConfig =
      ["-- Data Synchronization Script",
       "-- Generated by: MariaDB Advanced Database Synchronizer",
       "-- Author: João Cortez (jbcortezf@gmail.com)",
       "-- GitHub: https://github.com/jbcortezf/adjust-mariadb",
       "-- Generated on: 2025-01-01 10:00:00",
       "",
       "USE `db2`;",
       "SET FOREIGN_KEY_CHECKS = 0;",
       "",
       "-- Synchronizing data for table p (0 records)",
       "TRUNCATE TABLE `p`;",
       "",
       "SET FOREIGN_KEY_CHECKS = 1;"] ∧
    noInsertLine
      (generate_data_sql zeroSelections zeroSchema "db2" "2025-01-01 10:00:00" exConfig) =
      true :=
  ⟨by decide, by decide, by decide, by decide⟩

theorem C9_witness :
    ("TRUNCATE TABLE `" ++ "orders" ++ "`;") ∈
      generate_data_sql exSelections srcSchema "db2" "NOW" exConfig ∧
    ("-- WARNING: Data for table " ++ "orders" ++ " must be exported separately") ∈
      generate_data_sql exSelections srcSchema "db2" "NOW" exConfig := by
  have h := C9_truncate_and_export_marker exSelections srcSchema "db2" "NOW" exConfig
    "orders" ordersInfo (by decide) (by decide) (by decide)
  exact ⟨h.1, h.2.2.1⟩

theorem C10_witness :
    generate_data_sql (⟨["users"], [], [], []⟩ : Selections) srcSchema "db2" "NOW" exConfig =
      [] ∧
    "SET FOREIGN_KEY_CHECKS = 0;" ∈
      generate_structure_sql ⟨["users"], [], [], []⟩ srcSchema tgtSchema "db1" "db2" "NOW"
        exOrders := by
  have h := C10_empty_data_selection ⟨["users"], [], [], []⟩ srcSchema tgtSchema "db1" "db2"
    "NOW" exConfig exOrders rfl
  exact ⟨h.1, h.2.2.1⟩
end AdjustDB
